import Mathlib

/-!
# Cadence / Carla bridge layer: inbound control queue and plugin event relay

Shallow embedding of
* `src/carla-bridge-ui/carla_bridge_ui.h` : `UiData::UiData`, `UiData::queque_message`,
  `UiData::run_messages`;
* `src/carla/carla_threads.cpp` : one cycle of `CarlaCheckThread::run`, and
  `CarlaPluginThread::setOscData` and `CarlaPluginThread::run`.

Conventions.
* A C `int` that is only stored, compared with zero and handed on is an `Int`.
* A C `double` is only stored and handed on by this code, never computed with; it is
  carried as a rational number (`CDouble`).  The one place where a double is handed to an
  `int` parameter goes through `double_to_int`.
* Calls to virtual handlers, toolkit functions, OSC senders and the host callback are
  effects; they are recorded, in program order, in a list.
* The pthread mutex of `UiData` serialises whole calls; the model is the sequential
  behaviour of one call at a time and leaves the lock out.
-/

namespace Cadence

/-! ## Inbound control queue (`carla_bridge_ui.h`) -/

/-- Payload type standing for a C `double` that is stored and forwarded verbatim. -/
abbrev CDouble := Rat

/-- Capacity of the slot table: `const unsigned int MAX_BRIDGE_MESSAGES = 256;`. -/
def MAX_BRIDGE_MESSAGES : Nat := 256

/-- The enumeration `BridgeMessageType`, one constructor per enumerator. -/
inductive BridgeMessageType where
  | BRIDGE_MESSAGE_NULL
  | BRIDGE_MESSAGE_PARAMETER
  | BRIDGE_MESSAGE_PROGRAM
  | BRIDGE_MESSAGE_MIDI_PROGRAM
  | BRIDGE_MESSAGE_NOTE_ON
  | BRIDGE_MESSAGE_NOTE_OFF
  | BRIDGE_MESSAGE_SHOW_GUI
  | BRIDGE_MESSAGE_RESIZE_GUI
  | BRIDGE_MESSAGE_QUIT
  deriving DecidableEq, Repr

open BridgeMessageType

/-- The record `struct QuequeBridgeMessage`: one slot of the table. -/
structure QuequeBridgeMessage where
  valid : Bool
  type : BridgeMessageType
  value1 : Int
  value2 : Int
  value3 : CDouble
  deriving DecidableEq, Repr

/-- The member array `QuequeBridgeMessages[MAX_BRIDGE_MESSAGES]` of `UiData`, read and
written by index.  Only the indices below `MAX_BRIDGE_MESSAGES` are ever touched. -/
abbrev UiData := Nat → QuequeBridgeMessage

/-- What the constructor `UiData::UiData` stores in every slot. -/
def emptySlot : QuequeBridgeMessage :=
  { valid := false, type := BRIDGE_MESSAGE_NULL, value1 := 0, value2 := 0, value3 := 0 }

/-- The constructor `UiData::UiData`: every slot is invalid, of kind NULL, with zero values. -/
def UiData.new : UiData := fun _ => emptySlot

/-- The loop of `queque_message`, started at index `i` with `n` iterations left
(`n = MAX_BRIDGE_MESSAGES - i`): the first slot found invalid is filled and the loop is
left (`break`); when the index reaches the capacity the table is returned as it is. -/
def queque_message_loop (type : BridgeMessageType) (value1 value2 : Int) (value3 : CDouble) :
    Nat → Nat → UiData → UiData
  | 0, _, q => q
  | n + 1, i, q =>
    if (q i).valid = false then
      Function.update q i
        { valid := true, type := type, value1 := value1, value2 := value2, value3 := value3 }
    else
      queque_message_loop type value1 value2 value3 n (i + 1) q

/-- The method `UiData::queque_message(type, value1, value2, value3)`; it returns `void`, so
the new table is all it produces. -/
def queque_message (q : UiData) (type : BridgeMessageType) (value1 value2 : Int)
    (value3 : CDouble) : UiData :=
  queque_message_loop type value1 value2 value3 MAX_BRIDGE_MESSAGES 0 q

/-- The calls `run_messages` can make: the five virtual update hooks of `UiData` and the
four toolkit functions. -/
inductive UiCall where
  | update_parameter (index : Int) (value : CDouble)
  | update_program (index : Int)
  | update_midi_program (bank program : Int)
  | send_note_on (note velocity : Int)
  | send_note_off (note : Int)
  | toolkit_window_show
  | toolkit_window_hide
  | toolkit_window_resize (width height : Int)
  | toolkit_quit
  deriving DecidableEq, Repr

/-- The `switch (m->type)` of `run_messages`: the calls made for message `m`, and whether the
case returns from `run_messages` (only `BRIDGE_MESSAGE_QUIT` does; every other case ends in
`break`, which leaves the switch only).  The `default` label stands for no enumerator. -/
def switch_message (m : QuequeBridgeMessage) : List UiCall × Bool :=
  match m.type with
  | BRIDGE_MESSAGE_NULL => ([], false)
  | BRIDGE_MESSAGE_PARAMETER => ([UiCall.update_parameter m.value1 m.value3], false)
  | BRIDGE_MESSAGE_PROGRAM => ([UiCall.update_program m.value1], false)
  | BRIDGE_MESSAGE_MIDI_PROGRAM => ([UiCall.update_midi_program m.value1 m.value2], false)
  | BRIDGE_MESSAGE_NOTE_ON => ([UiCall.send_note_on m.value1 m.value2], false)
  | BRIDGE_MESSAGE_NOTE_OFF => ([UiCall.send_note_off m.value1], false)
  | BRIDGE_MESSAGE_SHOW_GUI =>
    (if m.value1 ≠ 0 then [UiCall.toolkit_window_show] else [UiCall.toolkit_window_hide], false)
  | BRIDGE_MESSAGE_RESIZE_GUI => ([UiCall.toolkit_window_resize m.value1 m.value2], false)
  | BRIDGE_MESSAGE_QUIT => ([UiCall.toolkit_quit], true)

/-- Outcome of one `run_messages` pass: the returned boolean, the table afterwards, the
messages on which the switch was executed (in order) and the calls made (in order). -/
structure RunResult where
  ret : Bool
  table : UiData
  dispatched : List QuequeBridgeMessage
  calls : List UiCall

/-- The loop of `run_messages`, started at index `i` with `n` iterations left.  A valid slot
is dispatched through the switch; on Quit the method returns `false` at once (the slot is
not marked invalid), otherwise the slot is marked invalid and the scan goes on; the first
invalid slot ends the loop (`else break`), as does reaching the capacity, and then the
method returns `true`. -/
def run_messages_loop : Nat → Nat → UiData → RunResult
  | 0, _, q => { ret := true, table := q, dispatched := [], calls := [] }
  | n + 1, i, q =>
    if (q i).valid then
      let m := q i
      let sw := switch_message m
      if sw.2 then
        { ret := false, table := q, dispatched := [m], calls := sw.1 }
      else
        let r := run_messages_loop n (i + 1) (Function.update q i { m with valid := false })
        { ret := r.ret, table := r.table, dispatched := m :: r.dispatched,
          calls := sw.1 ++ r.calls }
    else
      { ret := true, table := q, dispatched := [], calls := [] }

/-- The method `UiData::run_messages`. -/
def run_messages (q : UiData) : RunResult :=
  run_messages_loop MAX_BRIDGE_MESSAGES 0 q

/-- The arguments of one `queque_message` call. -/
structure Enqueue where
  type : BridgeMessageType
  value1 : Int
  value2 : Int
  value3 : CDouble
  deriving DecidableEq, Repr

/-- A sequence of `queque_message` calls made one after the other. -/
def queque_messages (q : UiData) : List Enqueue → UiData
  | [] => q
  | e :: es => queque_messages (queque_message q e.type e.value1 e.value2 e.value3) es

/-- The (type, value1, value2, value3) entry of a dispatched message. -/
def QuequeBridgeMessage.entry (m : QuequeBridgeMessage) : Enqueue :=
  { type := m.type, value1 := m.value1, value2 := m.value2, value3 := m.value3 }

/-- The slot a `queque_message` call with arguments `e` writes. -/
def Enqueue.slot (e : Enqueue) : QuequeBridgeMessage :=
  { valid := true, type := e.type, value1 := e.value1, value2 := e.value2, value3 := e.value3 }

/-- The table holding the messages `es` in its first slots, in order, every other slot being
as the constructor left it. -/
def filledTable (es : List Enqueue) : UiData :=
  fun i => match es[i]? with
    | some e => e.slot
    | none => emptySlot

/-- The table `q` with the `d` slots from index `i` on marked invalid. -/
def clearSlots (q : UiData) (i d : Nat) : UiData :=
  fun j => if i ≤ j ∧ j < i + d then { q j with valid := false } else q j

/-- The `d` slots of `q` from index `i` on, in index order. -/
def window (q : UiData) (i d : Nat) : List QuequeBridgeMessage :=
  (List.range d).map (fun j => q (i + j))

/-- A table in which every slot holds the same valid NoteOn message: a full queue. -/
def fullTable : UiData :=
  fun _ => { valid := true, type := BRIDGE_MESSAGE_NOTE_ON, value1 := 60, value2 := 100,
             value3 := 0 }

/-- A table holding a NoteOn, then a Quit, then a NoteOff message. -/
def quitTable : UiData :=
  filledTable [⟨BRIDGE_MESSAGE_NOTE_ON, 60, 100, 0⟩, ⟨BRIDGE_MESSAGE_QUIT, 0, 0, 0⟩,
    ⟨BRIDGE_MESSAGE_NOTE_OFF, 60, 0, 0⟩]

/-! ## Plugin event relay (`carla_threads.cpp`, `CarlaCheckThread::run`)

The declarations of `PluginPostEvent`, `MidiProgramInfo`, `CarlaPlugin`, the callback kinds
and the OSC senders live in headers outside the two source files; they are reconstructed
here from the way `CarlaCheckThread::run` uses them. -/

/-- Modelled from the spec: the post-event kinds (`PostEvent...` enumerators), declared outside
the source files; these are the six kinds the relay dispatches on. -/
inductive PluginPostEventType where
  | PostEventDebug
  | PostEventParameterChange
  | PostEventProgramChange
  | PostEventMidiProgramChange
  | PostEventNoteOn
  | PostEventNoteOff
  deriving DecidableEq, Repr

open PluginPostEventType

/-- Modelled from the spec: a post-event `{valid, kind, index, value}`, declared outside the
source files; `index` is a signed 32-bit integer, `value` a double. -/
structure PluginPostEvent where
  valid : Bool
  type : PluginPostEventType
  index : Int
  value : CDouble
  deriving DecidableEq, Repr

/-- Modelled from the spec: the plugin formats, declared outside the source files.  The relay
only asks whether the format is `PLUGIN_DSSI`; every other format is told apart by a number. -/
inductive PluginType where
  | PLUGIN_DSSI
  | PLUGIN_OTHER (format : Nat)
  deriving DecidableEq, Repr

open PluginType

/-- Modelled from the spec: the bank/program pair `get_midi_program_info` fills in (the record
is declared outside the source files; its label is not used by the relay). -/
structure MidiProgramInfo where
  valid : Bool
  bank : Nat
  program : Nat
  deriving DecidableEq, Repr

/-- Modelled from the spec: the parameter kinds, declared outside the source files.  The relay
only asks whether a parameter is `PARAMETER_OUTPUT`; every other kind is told apart by a
number. -/
inductive ParameterType where
  | PARAMETER_OUTPUT
  | PARAMETER_OTHER (kind : Nat)
  deriving DecidableEq, Repr

open ParameterType

/-- Modelled from the spec: the fields of `ParameterData` the relay reads (the record is
declared outside the source files): the kind, the index `rindex` sent to the remote UI and
the bit set `hints`. -/
structure ParameterData where
  type : ParameterType
  rindex : Int
  hints : Nat
  deriving DecidableEq, Repr

/-- Modelled from the spec: what the relay reads from a `CarlaPlugin` (the class is declared
outside the source files): `id()`, `type()`, `midiprog_count()` (an unsigned 32-bit count)
and the lookup `get_midi_program_info(&midiprog, index)`, taken as a function of the index.
Further members, read by the rest of the relay cycle and by the supervisor thread:
`filename()`, `name()`, whether `osc_data()->target` is set, the post-event buffer that
`post_events_copy` captures, `param_count()`, `param_data(j)` and `get_parameter_value(j)`. -/
structure CarlaPlugin where
  id : Int
  type : PluginType
  midiprog_count : Nat
  get_midi_program_info : Int → MidiProgramInfo
  filename : String := ""
  name : String := ""
  osc_data_target : Bool := false
  post_events : List PluginPostEvent := []
  param_count : Nat := 0
  param_data : Nat → ParameterData :=
    fun _ => { type := PARAMETER_OTHER 0, rindex := 0, hints := 0 }
  get_parameter_value : Nat → CDouble := fun _ => 0

/-- Modelled from the spec: the host callback kinds used by `carla_threads.cpp` (the
enumeration is declared outside the source files). -/
inductive CallbackType where
  | CALLBACK_DEBUG
  | CALLBACK_PARAMETER_CHANGED
  | CALLBACK_PROGRAM_CHANGED
  | CALLBACK_MIDI_PROGRAM_CHANGED
  | CALLBACK_NOTE_ON
  | CALLBACK_NOTE_OFF
  | CALLBACK_SHOW_GUI
  deriving DecidableEq, Repr

open CallbackType

/-- The outward calls of the relay, recorded in program order: the program lookup on the
plugin, the control-protocol publishes `osc_send_...` (all addressed to the plugin's own
`osc_data`), the host callback `callback_action(kind, plugin id, int, int, double)` and the
capture `post_events_copy` of the plugin's post-event buffer. -/
inductive RelayAction where
  | get_midi_program_info (index : Int)
  | osc_send_control (index : Int) (value : CDouble)
  | osc_send_program (index : Int)
  | osc_send_program_as_midi (bank program : Nat)
  | osc_send_midi_program (bank program : Nat)
  | callback_action (action : CallbackType) (plugin_id : Int) (value1 value2 : Int)
      (value3 : CDouble)
  | post_events_copy
  deriving DecidableEq, Repr

/-- Whether a recorded call is a control-protocol publish. -/
def RelayAction.isPublish : RelayAction → Bool
  | RelayAction.osc_send_control _ _ => true
  | RelayAction.osc_send_program _ => true
  | RelayAction.osc_send_program_as_midi _ _ => true
  | RelayAction.osc_send_midi_program _ _ => true
  | _ => false

/-- Whether a recorded call is a host callback. -/
def RelayAction.isCallback : RelayAction → Bool
  | RelayAction.callback_action _ _ _ _ _ => true
  | _ => false

/-- Whether a recorded call is the program lookup. -/
def RelayAction.isLookup : RelayAction → Bool
  | RelayAction.get_midi_program_info _ => true
  | _ => false

/-- The cast `(int32_t)x` of an unsigned 32-bit value: reduction modulo 2^32 into the range
from -2^31 up to 2^31 - 1. -/
def to_int32 (x : Nat) : Int :=
  ((x : Int) + 2147483648) % 4294967296 - 2147483648

/-- The implicit conversion of a double to the 32-bit `int` at a call: truncation towards
zero when the truncated value lies between -2^31 and 2^31 - 1.  Outside that range C++ leaves
the conversion undefined; the model takes what the x86-64 conversion instruction delivers
there, the least `int`, -2^31. -/
def double_to_int (v : CDouble) : Int :=
  if -2147483648 ≤ Int.tdiv v.num v.den ∧ Int.tdiv v.num v.den ≤ 2147483647 then
    Int.tdiv v.num v.den
  else
    -2147483648

/-- The `switch (post_events[j].type)` of `CarlaCheckThread::run` for one captured event of
plugin `plugin`. -/
def post_event_switch (plugin : CarlaPlugin) (e : PluginPostEvent) : List RelayAction :=
  match e.type with
  | PostEventDebug =>
    [RelayAction.callback_action CALLBACK_DEBUG plugin.id e.index 0 e.value]
  | PostEventParameterChange =>
    [RelayAction.osc_send_control e.index e.value,
     RelayAction.callback_action CALLBACK_PARAMETER_CHANGED plugin.id e.index 0 e.value]
  | PostEventProgramChange =>
    [RelayAction.osc_send_program e.index,
     RelayAction.callback_action CALLBACK_PROGRAM_CHANGED plugin.id e.index 0 0]
  | PostEventMidiProgramChange =>
    if e.index < to_int32 plugin.midiprog_count then
      let midiprog := plugin.get_midi_program_info e.index
      [RelayAction.get_midi_program_info e.index,
       if plugin.type = PLUGIN_DSSI then
         RelayAction.osc_send_program_as_midi midiprog.bank midiprog.program
       else
         RelayAction.osc_send_midi_program midiprog.bank midiprog.program,
       RelayAction.callback_action CALLBACK_MIDI_PROGRAM_CHANGED plugin.id e.index 0 0]
    else
      []
  | PostEventNoteOn =>
    [RelayAction.callback_action CALLBACK_NOTE_ON plugin.id e.index (double_to_int e.value) 0]
  | PostEventNoteOff =>
    [RelayAction.callback_action CALLBACK_NOTE_OFF plugin.id e.index 0 0]

/-- The loop `for (j=0; j < MAX_POST_EVENTS; j++)` over the captured events of one plugin, the
list being the local array `post_events` in index order: a valid entry goes through the
switch, an invalid one is passed over. -/
def process_post_events (plugin : CarlaPlugin) : List PluginPostEvent → List RelayAction
  | [] => []
  | e :: es =>
    (if e.valid then post_event_switch plugin e else []) ++ process_post_events plugin es

/-- Modelled from the spec: the method `post_events_copy` of `CarlaPlugin`, declared outside
the source files (the relay comments it as "Make a safe copy of events, and clear them"):
it hands out the content of the post-event buffer and leaves every entry of the buffer
invalid. -/
def CarlaPlugin.post_events_copy (plugin : CarlaPlugin) :
    List PluginPostEvent × CarlaPlugin :=
  (plugin.post_events,
   { plugin with post_events := plugin.post_events.map (fun e => { e with valid := false }) })

/-- The loop `for (j=0; j < plugin->param_count(); j++)` of the "Update ports" step, started
at index `j` with `n` iterations left.  The constant `PARAMETER_IS_AUTOMABLE`, a bit mask
declared outside the source files, is a parameter. -/
def update_ports_loop (PARAMETER_IS_AUTOMABLE : Nat) (plugin : CarlaPlugin)
    (update_ports_gui : Bool) : Nat → Nat → List RelayAction
  | 0, _ => []
  | n + 1, j =>
    (if (plugin.param_data j).type = PARAMETER_OUTPUT
        ∧ ((plugin.param_data j).hints &&& PARAMETER_IS_AUTOMABLE) > 0 then
      (if update_ports_gui then
        [RelayAction.osc_send_control (plugin.param_data j).rindex
          (plugin.get_parameter_value j)]
      else [])
    else [])
    ++ update_ports_loop PARAMETER_IS_AUTOMABLE plugin update_ports_gui n (j + 1)

/-- The "Update ports" step of `CarlaCheckThread::run` for one plugin:
`update_ports_gui = (osc_data->target != nullptr)`, then the loop over the parameters. -/
def update_ports (PARAMETER_IS_AUTOMABLE : Nat) (plugin : CarlaPlugin) : List RelayAction :=
  update_ports_loop PARAMETER_IS_AUTOMABLE plugin plugin.osc_data_target plugin.param_count 0

/-- The body of `if (plugin && plugin->id() >= 0)` in `CarlaCheckThread::run`: capture and
clear the post events, process the captured events, update the ports.  (The peak-value step
that follows has an empty body in the source.)  The result is the plugin afterwards and the
calls made. -/
def CarlaCheckThread.run_plugin (PARAMETER_IS_AUTOMABLE : Nat) (plugin : CarlaPlugin) :
    CarlaPlugin × List RelayAction :=
  let copy := plugin.post_events_copy
  (copy.2,
   RelayAction.post_events_copy ::
     (process_post_events copy.2 copy.1 ++ update_ports PARAMETER_IS_AUTOMABLE copy.2))

/-- One pass of the loop `for (i=0; i<MAX_PLUGINS; i++)` of `CarlaCheckThread::run`, that is
one relay cycle, over the registry `CarlaPlugins` given as the list of its slots in index
order (`none` is a null handle).  The result is the registry afterwards and the calls made.
The surrounding `while (carla_is_engine_running())` repeats this pass every 50 ms. -/
def CarlaCheckThread.run_cycle (PARAMETER_IS_AUTOMABLE : Nat) :
    List (Option CarlaPlugin) → List (Option CarlaPlugin) × List RelayAction
  | [] => ([], [])
  | none :: slots =>
    let rest := CarlaCheckThread.run_cycle PARAMETER_IS_AUTOMABLE slots
    (none :: rest.1, rest.2)
  | some plugin :: slots =>
    if plugin.id ≥ 0 then
      let here := CarlaCheckThread.run_plugin PARAMETER_IS_AUTOMABLE plugin
      let rest := CarlaCheckThread.run_cycle PARAMETER_IS_AUTOMABLE slots
      (some here.1 :: rest.1, here.2 ++ rest.2)
    else
      let rest := CarlaCheckThread.run_cycle PARAMETER_IS_AUTOMABLE slots
      (some plugin :: rest.1, rest.2)

/-- A plugin of a format other than DSSI, with identifier 3 and two MIDI programs; the lookup
answers bank `7` and the asked index as program for the indices 0 and 1. -/
def samplePlugin : CarlaPlugin :=
  { id := 3, type := PLUGIN_OTHER 4, midiprog_count := 2,
    get_midi_program_info := fun i => { valid := true, bank := 7, program := i.toNat } }

/-- A plugin with identifier 0 that has no MIDI program at all. -/
def emptyProgramsPlugin : CarlaPlugin :=
  { id := 0, type := PLUGIN_OTHER 4, midiprog_count := 0,
    get_midi_program_info := fun _ => { valid := false, bank := 0, program := 0 } }

/-- A plugin whose MIDI-program count is 2^31, the least count above the signed 32-bit range. -/
def hugeProgramsPlugin : CarlaPlugin :=
  { id := 0, type := PLUGIN_DSSI, midiprog_count := 2147483648,
    get_midi_program_info := fun i => { valid := true, bank := 0, program := i.toNat } }

/-- A plugin with identifier 5 and a remote UI attached; its parameter 0 is an automatable
output (hints `0x18`, sent as index 10, current value 2), parameter 1 an output that is not
automatable, parameter 2 an automatable parameter that is no output.  Its post-event buffer
holds a parameter change and a note-on. -/
def portsPlugin : CarlaPlugin :=
  { id := 5, type := PLUGIN_DSSI, midiprog_count := 0,
    get_midi_program_info := fun _ => { valid := false, bank := 0, program := 0 },
    filename := "/usr/lib/dssi/synth.so", name := "Synth", osc_data_target := true,
    post_events := [⟨true, PostEventParameterChange, 4, 7⟩, ⟨true, PostEventNoteOn, 60, 100⟩],
    param_count := 3,
    param_data := fun j =>
      if j = 0 then { type := PARAMETER_OUTPUT, rindex := 10, hints := 24 }
      else if j = 1 then { type := PARAMETER_OUTPUT, rindex := 11, hints := 8 }
      else { type := PARAMETER_OTHER 1, rindex := 12, hints := 16 },
    get_parameter_value := fun j => if j = 0 then 2 else 0 }

/-- A plugin handle whose identifier is negative, with a pending post event. -/
def negativeIdPlugin : CarlaPlugin :=
  { id := -1, type := PLUGIN_DSSI, midiprog_count := 0,
    get_midi_program_info := fun _ => { valid := false, bank := 0, program := 0 },
    osc_data_target := true,
    post_events := [⟨true, PostEventProgramChange, 1, 0⟩] }

/-! ## Inbound control queue: interleaved use -/

/-- One call on the queue: `queque_message` with the given arguments, or `run_messages`. -/
inductive QueueOp where
  | enqueue (e : Enqueue)
  | run
  deriving DecidableEq, Repr

/-- Whether a call enqueues a Quit message. -/
def QueueOp.isQuit : QueueOp → Bool
  | QueueOp.enqueue e => decide (e.type = BRIDGE_MESSAGE_QUIT)
  | QueueOp.run => false

/-- The table after a sequence of calls made one after the other on table `q`. -/
def apply_ops (q : UiData) : List QueueOp → UiData
  | [] => q
  | QueueOp.enqueue e :: ops =>
    apply_ops (queque_message q e.type e.value1 e.value2 e.value3) ops
  | QueueOp.run :: ops => apply_ops (run_messages q).table ops

/-- The values returned by the `run_messages` calls of a sequence of calls made on table
`q`, in call order. -/
def run_returns (q : UiData) : List QueueOp → List Bool
  | [] => []
  | QueueOp.enqueue e :: ops =>
    run_returns (queque_message q e.type e.value1 e.value2 e.value3) ops
  | QueueOp.run :: ops => (run_messages q).ret :: run_returns (run_messages q).table ops

/-- The valid slots of `q` are exactly the first `n` slots, `n` is at most the capacity, and
no valid slot holds a Quit message. -/
def QueueInv (q : UiData) (n : Nat) : Prop :=
  n ≤ MAX_BRIDGE_MESSAGES ∧ (∀ i, (q i).valid = true ↔ i < n)
    ∧ ∀ i, (q i).valid = true → (q i).type ≠ BRIDGE_MESSAGE_QUIT

/-! ## Process supervisor (`carla_threads.cpp`, `CarlaPluginThread`) -/

/-- Modelled from the spec: the supervisor modes (`PluginThreadMode`, declared outside the
source files): the two GUI modes and the full-bridge mode. -/
inductive PluginThreadMode where
  | PLUGIN_THREAD_DSSI_GUI
  | PLUGIN_THREAD_LV2_GUI
  | PLUGIN_THREAD_BRIDGE
  deriving DecidableEq, Repr

open PluginThreadMode

/-- The members of `CarlaPluginThread` (the class is declared outside the source files; the
members are those its methods in `carla_threads.cpp` use).  `m_process` records whether the
`QProcess` object exists. -/
structure CarlaPluginThread where
  m_plugin : CarlaPlugin
  m_mode : PluginThreadMode
  m_process : Bool
  m_binary : String
  m_label : String
  m_data1 : String
  m_data2 : String
  m_data3 : String

/-- The constructor `CarlaPluginThread(plugin, mode)`: no process yet, empty strings. -/
def CarlaPluginThread.new (plugin : CarlaPlugin) (mode : PluginThreadMode) :
    CarlaPluginThread :=
  { m_plugin := plugin, m_mode := mode, m_process := false, m_binary := "", m_label := "",
    m_data1 := "", m_data2 := "", m_data3 := "" }

/-- The method `CarlaPluginThread::setOscData(binary, label, data1, data2, data3)`. -/
def CarlaPluginThread.setOscData (t : CarlaPluginThread)
    (binary label data1 data2 data3 : String) : CarlaPluginThread :=
  { t with m_binary := binary, m_label := label, m_data1 := data1, m_data2 := data2,
           m_data3 := data3 }

/-- What the outside answers during one `CarlaPluginThread::run`: the host OSC url
(`get_host_osc_url()`), the result of `waitForStarted()`, the result of
`m_plugin->update_osc_gui()`, the exit code of the subprocess and its standard output. -/
structure ProcessAnswers where
  host_osc_url : String
  started : Bool
  osc_gui : Bool
  exitCode : Int
  standardOutput : String

/-- The outward calls of `CarlaPluginThread::run`, recorded in program order. -/
inductive SupervisorAction where
  | start (binary : String) (arguments : List String)
  | waitForStarted
  | update_osc_gui
  | waitForFinished (msecs : Int)
  | callback_action (action : CallbackType) (plugin_id : Int) (value1 value2 : Int)
      (value3 : CDouble)
  | qWarning (message : String)
  | qDebug (message : String)
  deriving DecidableEq, Repr

/-- Whether a recorded call is a host callback. -/
def SupervisorAction.isCallback : SupervisorAction → Bool
  | SupervisorAction.callback_action _ _ _ _ _ => true
  | _ => false

/-- The string `QString("%1/%2").arg(get_host_osc_url()).arg(m_plugin->id())`: the url, a
slash, the identifier in decimal (the url is taken to hold no place marker of its own). -/
def osc_url_with_id (host_osc_url : String) (id : Int) : String :=
  host_osc_url ++ "/" ++ toString id

/-- The first `switch (m_mode)` of `CarlaPluginThread::run`: the argument list. -/
def CarlaPluginThread.arguments (t : CarlaPluginThread) (host_osc_url : String) :
    List String :=
  match t.m_mode with
  | PLUGIN_THREAD_DSSI_GUI =>
    [osc_url_with_id host_osc_url t.m_plugin.id, t.m_plugin.filename, t.m_label,
     t.m_plugin.name ++ " (GUI)"]
  | PLUGIN_THREAD_LV2_GUI =>
    [osc_url_with_id host_osc_url t.m_plugin.id, t.m_label, t.m_data1, t.m_data2, t.m_data3,
     t.m_plugin.name ++ " (GUI)"]
  | PLUGIN_THREAD_BRIDGE =>
    [osc_url_with_id host_osc_url t.m_plugin.id, t.m_data1, t.m_plugin.filename, t.m_label]

/-- The second `switch (m_mode)` of `CarlaPluginThread::run`: what follows the start of the
subprocess. -/
def CarlaPluginThread.supervise (t : CarlaPluginThread) (a : ProcessAnswers) :
    List SupervisorAction :=
  match t.m_mode with
  | PLUGIN_THREAD_DSSI_GUI | PLUGIN_THREAD_LV2_GUI =>
    SupervisorAction.update_osc_gui ::
      (if a.osc_gui then
        SupervisorAction.waitForFinished (-1) ::
          (if a.exitCode = 0 then
            [SupervisorAction.callback_action CALLBACK_SHOW_GUI t.m_plugin.id 0 0 0,
             SupervisorAction.qWarning "CarlaPluginThread::run() - GUI closed"]
          else
            [SupervisorAction.callback_action CALLBACK_SHOW_GUI t.m_plugin.id (-1) 0 0,
             SupervisorAction.qWarning "CarlaPluginThread::run() - GUI crashed"])
      else
        [SupervisorAction.qDebug "CarlaPluginThread::run() - GUI timeout",
         SupervisorAction.callback_action CALLBACK_SHOW_GUI t.m_plugin.id 0 0 0])
  | PLUGIN_THREAD_BRIDGE =>
    [SupervisorAction.waitForFinished (-1),
     (if a.exitCode = 0 then
        SupervisorAction.qDebug "CarlaPluginThread::run() - bridge closed"
      else
        SupervisorAction.qDebug "CarlaPluginThread::run() - bridge crashed"),
     SupervisorAction.qDebug a.standardOutput]

/-- The method `CarlaPluginThread::run`: the process object is created if there is none, the
subprocess is started with the argument list of the mode, its start is waited for (the
result of `waitForStarted()` is not looked at), and the second switch follows.  The result
is the thread object afterwards and the calls made. -/
def CarlaPluginThread.run (t : CarlaPluginThread) (a : ProcessAnswers) :
    CarlaPluginThread × List SupervisorAction :=
  ({ t with m_process := true },
   SupervisorAction.start t.m_binary (t.arguments a.host_osc_url) ::
     SupervisorAction.waitForStarted :: t.supervise a)

/-- The host callbacks among the calls of one `CarlaPluginThread::run`, in order. -/
def CarlaPluginThread.callbacks (t : CarlaPluginThread) (a : ProcessAnswers) :
    List SupervisorAction :=
  (t.run a).2.filter SupervisorAction.isCallback

/-- A supervisor in DSSI GUI mode for the sample plugin `portsPlugin`, configured. -/
def guiThread : CarlaPluginThread :=
  (CarlaPluginThread.new portsPlugin PLUGIN_THREAD_DSSI_GUI).setOscData
    "carla-bridge-ui" "synth" "a" "b" "c"

/-- A supervisor in full-bridge mode for the sample plugin `portsPlugin`, configured. -/
def bridgeThread : CarlaPluginThread :=
  (CarlaPluginThread.new portsPlugin PLUGIN_THREAD_BRIDGE).setOscData
    "carla-bridge" "synth" "DSSI" "" ""

/-- Answers of the outside in which the subprocess started, the GUI answered and the
subprocess ended with the given exit code. -/
def answersWithExit (code : Int) : ProcessAnswers :=
  { host_osc_url := "osc.udp://localhost:1234/Carla", started := true, osc_gui := true,
    exitCode := code, standardOutput := "" }

/-- Answers of the outside in which the subprocess did not start. -/
def answersNotStarted : ProcessAnswers :=
  { host_osc_url := "osc.udp://localhost:1234/Carla", started := false, osc_gui := false,
    exitCode := 0, standardOutput := "" }

/-! ### Lemmas on the enqueue scan -/

theorem queque_message_loop_full (t : BridgeMessageType) (v1 v2 : Int) (v3 : CDouble) :
    ∀ (n i : Nat) (q : UiData), (∀ j, i ≤ j → j < i + n → (q j).valid = true) →
      queque_message_loop t v1 v2 v3 n i q = q := by
  intro n
  induction n with
  | zero => intro i q _; rfl
  | succ n ih =>
    intro i q h
    have hi : (q i).valid = true := h i (Nat.le_refl i) (by omega)
    simp only [queque_message_loop, hi]
    simpa using ih (i + 1) q (fun j h1 h2 => h j (by omega) (by omega))

theorem queque_message_loop_first (t : BridgeMessageType) (v1 v2 : Int) (v3 : CDouble) :
    ∀ (n i : Nat) (q : UiData) (k : Nat), i ≤ k → k < i + n →
      (∀ j, i ≤ j → j < k → (q j).valid = true) → (q k).valid = false →
      queque_message_loop t v1 v2 v3 n i q =
        Function.update q k
          { valid := true, type := t, value1 := v1, value2 := v2, value3 := v3 } := by
  intro n
  induction n with
  | zero => intro i q k h1 h2; omega
  | succ n ih =>
    intro i q k h1 h2 hv hk
    by_cases hik : i = k
    · subst hik
      simp [queque_message_loop, hk]
    · have hi : (q i).valid = true := hv i (Nat.le_refl i) (by omega)
      simp only [queque_message_loop, hi]
      simpa using ih (i + 1) q k (by omega) (by omega)
        (fun j h3 h4 => hv j (by omega) h4) hk

theorem filledTable_nil : filledTable [] = UiData.new := by
  funext i
  simp [filledTable, UiData.new]

theorem filledTable_lt (es : List Enqueue) (i : Nat) (h : i < es.length) :
    filledTable es i = (es.get ⟨i, h⟩).slot := by
  simp [filledTable, List.getElem?_eq_getElem h]

theorem filledTable_ge (es : List Enqueue) (i : Nat) (h : es.length ≤ i) :
    filledTable es i = emptySlot := by
  simp [filledTable, List.getElem?_eq_none h]

theorem filledTable_valid (es : List Enqueue) (i : Nat) :
    (filledTable es i).valid = true ↔ i < es.length := by
  by_cases h : i < es.length
  · simp [filledTable_lt es i h, Enqueue.slot, h]
  · simp [filledTable_ge es i (Nat.le_of_not_lt h), emptySlot, h]

theorem queque_message_filledTable_room (es : List Enqueue) (e : Enqueue)
    (h : es.length < MAX_BRIDGE_MESSAGES) :
    queque_message (filledTable es) e.type e.value1 e.value2 e.value3 =
      filledTable (es ++ [e]) := by
  unfold queque_message
  rw [queque_message_loop_first e.type e.value1 e.value2 e.value3 MAX_BRIDGE_MESSAGES 0
    (filledTable es) es.length (Nat.zero_le _) (by omega)
    (fun j _ hj => (filledTable_valid es j).2 hj)
    (by
      have := filledTable_valid es es.length
      simpa using this)]
  funext j
  by_cases hj : j = es.length
  · subst hj
    simp [filledTable, Enqueue.slot]
  · rw [Function.update_noteq hj]
    by_cases hlt : j < es.length
    · simp [filledTable, List.getElem?_append_left hlt]
    · have hge : es.length + 1 ≤ j := by omega
      simp [filledTable, List.getElem?_eq_none, hge, Nat.le_of_lt hge]

theorem queque_message_filledTable_full (es : List Enqueue) (e : Enqueue)
    (h : MAX_BRIDGE_MESSAGES ≤ es.length) :
    queque_message (filledTable es) e.type e.value1 e.value2 e.value3 = filledTable es := by
  unfold queque_message
  exact queque_message_loop_full _ _ _ _ MAX_BRIDGE_MESSAGES 0 (filledTable es)
    (fun j _ hj => (filledTable_valid es j).2 (by omega))

theorem queque_messages_filledTable (es : List Enqueue) :
    ∀ (pre : List Enqueue), pre.length ≤ MAX_BRIDGE_MESSAGES →
      queque_messages (filledTable pre) es =
        filledTable (pre ++ es.take (MAX_BRIDGE_MESSAGES - pre.length)) := by
  induction es with
  | nil => intro pre _; simp [queque_messages]
  | cons e es ih =>
    intro pre hpre
    by_cases hroom : pre.length < MAX_BRIDGE_MESSAGES
    · obtain ⟨d, hd⟩ : ∃ d, MAX_BRIDGE_MESSAGES - pre.length = d + 1 :=
        ⟨MAX_BRIDGE_MESSAGES - pre.length - 1, by omega⟩
      have hlen : (pre ++ [e]).length ≤ MAX_BRIDGE_MESSAGES := by simp; omega
      have hd2 : MAX_BRIDGE_MESSAGES - (pre ++ [e]).length = d := by simp; omega
      simp only [queque_messages]
      rw [queque_message_filledTable_room pre e hroom, ih (pre ++ [e]) hlen, hd, hd2]
      simp
    · have hfull : MAX_BRIDGE_MESSAGES ≤ pre.length := Nat.le_of_not_lt hroom
      have hz : MAX_BRIDGE_MESSAGES - pre.length = 0 := by omega
      simp only [queque_messages]
      rw [queque_message_filledTable_full pre e hfull, ih pre hpre, hz]
      simp

theorem queque_messages_new (es : List Enqueue) :
    queque_messages UiData.new es = filledTable (es.take MAX_BRIDGE_MESSAGES) := by
  have := queque_messages_filledTable es [] (Nat.zero_le _)
  simpa [filledTable_nil] using this

/-! ### Lemmas on the drain scan -/

theorem switch_message_returns (m : QuequeBridgeMessage) :
    (switch_message m).2 = true ↔ m.type = BRIDGE_MESSAGE_QUIT := by
  unfold switch_message
  cases m.type <;> simp

theorem switch_message_quit_mem (m : QuequeBridgeMessage) :
    UiCall.toolkit_quit ∈ (switch_message m).1 ↔ m.type = BRIDGE_MESSAGE_QUIT := by
  unfold switch_message
  cases m.type <;> simp
  split <;> simp

theorem clearSlots_zero (q : UiData) (i : Nat) : clearSlots q i 0 = q := by
  funext j
  simp [clearSlots]

theorem clearSlots_outside (q : UiData) (i d j : Nat) (h : j < i ∨ i + d ≤ j) :
    clearSlots q i d j = q j := by
  have : ¬ (i ≤ j ∧ j < i + d) := by omega
  simp [clearSlots, this]

theorem clearSlots_inside (q : UiData) (i d j : Nat) (h1 : i ≤ j) (h2 : j < i + d) :
    clearSlots q i d j = { q j with valid := false } := by
  simp [clearSlots, h1, h2]

theorem clearSlots_update (q : UiData) (i d : Nat) :
    clearSlots (Function.update q i { q i with valid := false }) (i + 1) d =
      clearSlots q i (d + 1) := by
  funext j
  by_cases hj : j = i
  · subst hj
    simp [clearSlots]
  · by_cases hin : i + 1 ≤ j ∧ j < i + 1 + d
    · have hin2 : i ≤ j ∧ j < i + (d + 1) := by omega
      simp [clearSlots, hin, hin2, Function.update_noteq hj]
    · have hin2 : ¬ (i ≤ j ∧ j < i + (d + 1)) := by omega
      simp [clearSlots, hin, hin2, Function.update_noteq hj]

theorem window_zero (q : UiData) (i : Nat) : window q i 0 = [] := rfl

theorem window_succ (q : UiData) (i d : Nat) :
    window q i (d + 1) = q i :: window q (i + 1) d := by
  simp [window, List.range_succ_eq_map, Function.comp_def, Nat.add_assoc, Nat.add_comm 1]

theorem window_congr (q q2 : UiData) (i d : Nat) (h : ∀ j, j < d → q2 (i + j) = q (i + j)) :
    window q2 i d = window q i d := by
  unfold window
  apply List.map_congr_left
  intro j hj
  exact h j (List.mem_range.1 hj)

theorem window_length (q : UiData) (i d : Nat) : (window q i d).length = d := by
  simp [window]

/-- Draining `d` consecutive valid slots, none of kind Quit, from index `i`: each is
dispatched and marked invalid, and the scan goes on from index `i + d`. -/
theorem run_messages_loop_advance (d : Nat) :
    ∀ (n i : Nat) (q : UiData), d ≤ n →
      (∀ j, j < d → (q (i + j)).valid = true ∧ (q (i + j)).type ≠ BRIDGE_MESSAGE_QUIT) →
      run_messages_loop n i q =
        { ret := (run_messages_loop (n - d) (i + d) (clearSlots q i d)).ret,
          table := (run_messages_loop (n - d) (i + d) (clearSlots q i d)).table,
          dispatched := window q i d ++
            (run_messages_loop (n - d) (i + d) (clearSlots q i d)).dispatched,
          calls := (window q i d).flatMap (fun m => (switch_message m).1) ++
            (run_messages_loop (n - d) (i + d) (clearSlots q i d)).calls } := by
  induction d with
  | zero =>
    intro n i q _ _
    simp [clearSlots_zero, window_zero]
  | succ d ih =>
    intro n i q hn h
    obtain ⟨n, rfl⟩ : ∃ n2, n = n2 + 1 := ⟨n - 1, by omega⟩
    have h0 := h 0 (Nat.succ_pos d)
    have hv : (q i).valid = true := by simpa using h0.1
    have hq : (switch_message (q i)).2 = false := by
      have := switch_message_returns (q i)
      have hne : (q i).type ≠ BRIDGE_MESSAGE_QUIT := by simpa using h0.2
      cases hsw : (switch_message (q i)).2
      · rfl
      · exact absurd (this.1 hsw) hne
    have hrest : ∀ j, j < d →
        ((Function.update q i { q i with valid := false }) (i + 1 + j)).valid = true ∧
        ((Function.update q i { q i with valid := false }) (i + 1 + j)).type
          ≠ BRIDGE_MESSAGE_QUIT := by
      intro j hj
      have hne : i + 1 + j ≠ i := by omega
      rw [Function.update_noteq hne]
      have := h (j + 1) (by omega)
      simpa [Nat.add_assoc, Nat.add_comm 1] using this
    have hw : window (Function.update q i { q i with valid := false }) (i + 1) d =
        window q (i + 1) d := by
      apply window_congr
      intro j _
      have hne : i + 1 + j ≠ i := by omega
      rw [Function.update_noteq hne]
    have step := ih n (i + 1) (Function.update q i { q i with valid := false })
      (by omega) hrest
    rw [clearSlots_update, hw] at step
    have e1 : n + 1 - (d + 1) = n - d := by omega
    have e2 : i + (d + 1) = i + 1 + d := by omega
    rw [run_messages_loop]
    simp only [hv, hq, if_true, Bool.false_eq_true, if_false]
    rw [step, e1, e2, window_succ]
    simp

theorem run_messages_loop_invalid (n i : Nat) (q : UiData) (h : (q i).valid = false) :
    run_messages_loop n i q = { ret := true, table := q, dispatched := [], calls := [] } := by
  cases n with
  | zero => rfl
  | succ n => simp [run_messages_loop, h]

theorem run_messages_loop_quit (n i : Nat) (q : UiData) (hv : (q i).valid = true)
    (hq : (q i).type = BRIDGE_MESSAGE_QUIT) :
    run_messages_loop (n + 1) i q =
      { ret := false, table := q, dispatched := [q i], calls := [UiCall.toolkit_quit] } := by
  have h2 : (switch_message (q i)).2 = true := (switch_message_returns (q i)).2 hq
  have h1 : (switch_message (q i)).1 = [UiCall.toolkit_quit] := by
    simp [switch_message, hq]
  simp [run_messages_loop, hv, h2, h1]

theorem run_messages_loop_calls :
    ∀ (n i : Nat) (q : UiData),
      (run_messages_loop n i q).calls =
        (run_messages_loop n i q).dispatched.flatMap (fun m => (switch_message m).1) := by
  intro n
  induction n with
  | zero => intro i q; rfl
  | succ n ih =>
    intro i q
    rw [run_messages_loop]
    by_cases hv : (q i).valid = true
    · by_cases hs : (switch_message (q i)).2 = true
      · simp [hv, hs]
      · simp [hv, hs, ih]
    · simp [hv]

theorem run_messages_loop_ret :
    ∀ (n i : Nat) (q : UiData),
      (run_messages_loop n i q).ret = false ↔
        ∃ m, m ∈ (run_messages_loop n i q).dispatched ∧ m.type = BRIDGE_MESSAGE_QUIT := by
  intro n
  induction n with
  | zero => intro i q; simp [run_messages_loop]
  | succ n ih =>
    intro i q
    rw [run_messages_loop]
    by_cases hv : (q i).valid = true
    · by_cases hs : (switch_message (q i)).2 = true
      · have := (switch_message_returns (q i)).1 hs
        simp [hv, hs, this]
      · have hne : ¬ (q i).type = BRIDGE_MESSAGE_QUIT :=
          fun h => hs ((switch_message_returns (q i)).2 h)
        simp [hv, hs, hne, ih]
    · simp [hv]

theorem window_filledTable (es : List Enqueue) :
    window (filledTable es) 0 es.length = es.map Enqueue.slot := by
  apply List.ext_getElem
  · simp [window]
  · intro n h1 h2
    have hn : n < es.length := by simpa [window] using h1
    simp [window, filledTable, List.getElem?_eq_getElem hn]

/-- One pass over a table that holds the messages `es`, none of kind Quit, in its first
slots: all of them are dispatched in order, the pass returns `true`, and the slots that held
them are marked invalid. -/
theorem run_messages_filledTable (es : List Enqueue) (hlen : es.length ≤ MAX_BRIDGE_MESSAGES)
    (hq : ∀ e, e ∈ es → e.type ≠ BRIDGE_MESSAGE_QUIT) :
    run_messages (filledTable es) =
      { ret := true, table := clearSlots (filledTable es) 0 es.length,
        dispatched := es.map Enqueue.slot,
        calls := (es.map Enqueue.slot).flatMap (fun m => (switch_message m).1) } := by
  have hpre : ∀ j, j < es.length → (filledTable es (0 + j)).valid = true ∧
      (filledTable es (0 + j)).type ≠ BRIDGE_MESSAGE_QUIT := by
    intro j hj
    rw [Nat.zero_add, filledTable_lt es j hj]
    exact ⟨rfl, hq _ (List.get_mem es j hj)⟩
  have hstop : (clearSlots (filledTable es) 0 es.length (0 + es.length)).valid = false := by
    rw [clearSlots_outside _ _ _ _ (Or.inr (Nat.le_refl _)), Nat.zero_add,
      filledTable_ge es _ (Nat.le_refl _)]
    rfl
  unfold run_messages
  rw [run_messages_loop_advance es.length MAX_BRIDGE_MESSAGES 0 (filledTable es) hlen hpre,
    run_messages_loop_invalid _ _ _ hstop, window_filledTable]
  simp

theorem range_map_eq_window (q : UiData) (k : Nat) :
    (List.range k).map q = window q 0 k := by
  simp [window]

/-! ### Lemmas on the relay -/

theorem to_int32_le (x : Nat) : to_int32 x ≤ (x : Int) := by
  unfold to_int32
  omega

theorem to_int32_of_lt (x : Nat) (h : x < 2147483648) : to_int32 x = (x : Int) := by
  unfold to_int32
  omega

theorem process_post_events_append (p : CarlaPlugin) (es fs : List PluginPostEvent) :
    process_post_events p (es ++ fs) = process_post_events p es ++ process_post_events p fs := by
  induction es with
  | nil => rfl
  | cons e es ih => simp [process_post_events, ih]

theorem process_post_events_single (p : CarlaPlugin) (e : PluginPostEvent)
    (hv : e.valid = true) : process_post_events p [e] = post_event_switch p e := by
  simp [process_post_events, hv]

theorem process_post_events_middle (p : CarlaPlugin) (e : PluginPostEvent)
    (hv : e.valid = true) (before after : List PluginPostEvent) :
    process_post_events p (before ++ e :: after) =
      process_post_events p before ++ post_event_switch p e ++
        process_post_events p after := by
  rw [process_post_events_append]
  simp [process_post_events, hv]

theorem double_to_int_intCast (n : Int) (h : -2147483648 ≤ n ∧ n ≤ 2147483647) :
    double_to_int (n : Rat) = n := by
  simp [double_to_int, h]

theorem double_to_int_range (v : CDouble) :
    -2147483648 ≤ double_to_int v ∧ double_to_int v ≤ 2147483647 := by
  unfold double_to_int
  split
  · assumption
  · omega

theorem update_ports_loop_eq (F : Nat) (p : CarlaPlugin) (g : Bool) :
    ∀ (n j : Nat), update_ports_loop F p g n j =
      if g = true then
        ((List.range' j n).filter (fun k =>
            decide ((p.param_data k).type = PARAMETER_OUTPUT
              ∧ ((p.param_data k).hints &&& F) > 0))).map
          (fun k => RelayAction.osc_send_control (p.param_data k).rindex
            (p.get_parameter_value k))
      else [] := by
  intro n
  induction n with
  | zero => intro j; simp [update_ports_loop]
  | succ n ih =>
    intro j
    rw [update_ports_loop, ih (j + 1), List.range'_succ]
    by_cases hg : g = true
    · by_cases hq : (p.param_data j).type = PARAMETER_OUTPUT
          ∧ ((p.param_data j).hints &&& F) > 0
      · simp [hg, hq, List.filter_cons]
      · simp [hg, hq, List.filter_cons]
    · simp [hg]

theorem update_ports_loop_no_target (F : Nat) (p : CarlaPlugin) :
    ∀ (n j : Nat), update_ports_loop F p false n j = [] := by
  intro n j
  rw [update_ports_loop_eq]
  simp

theorem run_cycle_append (F : Nat) (xs ys : List (Option CarlaPlugin)) :
    CarlaCheckThread.run_cycle F (xs ++ ys) =
      ((CarlaCheckThread.run_cycle F xs).1 ++ (CarlaCheckThread.run_cycle F ys).1,
       (CarlaCheckThread.run_cycle F xs).2 ++ (CarlaCheckThread.run_cycle F ys).2) := by
  induction xs with
  | nil => simp [CarlaCheckThread.run_cycle]
  | cons x xs ih =>
    cases x with
    | none => simp [CarlaCheckThread.run_cycle, ih]
    | some plugin =>
      by_cases hid : plugin.id ≥ 0
      · simp [CarlaCheckThread.run_cycle, ih, hid]
      · simp [CarlaCheckThread.run_cycle, ih, hid]

theorem run_cycle_skip (F : Nat) (slot : Option CarlaPlugin)
    (hskip : slot = none ∨ ∃ plugin, slot = some plugin ∧ plugin.id < 0) :
    CarlaCheckThread.run_cycle F [slot] = ([slot], []) := by
  rcases hskip with h | ⟨plugin, h, hid⟩
  · subst h
    simp [CarlaCheckThread.run_cycle]
  · subst h
    have : ¬ plugin.id ≥ 0 := by omega
    simp [CarlaCheckThread.run_cycle, this]

/-! ### Lemmas on interleaved use of the queue -/

theorem queueInv_new : QueueInv UiData.new 0 := by
  refine ⟨Nat.zero_le _, ?_, ?_⟩
  · intro i
    simp [UiData.new, emptySlot]
  · intro i h
    simp [UiData.new, emptySlot] at h

theorem queueInv_enqueue (q : UiData) (n : Nat) (h : QueueInv q n) (t : BridgeMessageType)
    (v1 v2 : Int) (v3 : CDouble) (ht : t ≠ BRIDGE_MESSAGE_QUIT) :
    ∃ n2, QueueInv (queque_message q t v1 v2 v3) n2 := by
  obtain ⟨hn, hval, hty⟩ := h
  by_cases hroom : n < MAX_BRIDGE_MESSAGES
  · have hk : (q n).valid = false := by
      have := (hval n).not.2 (Nat.lt_irrefl n)
      simpa using this
    have hrun := queque_message_loop_first t v1 v2 v3 MAX_BRIDGE_MESSAGES 0 q n
      (Nat.zero_le _) (by omega) (fun j _ hj => (hval j).2 hj) hk
    refine ⟨n + 1, hroom, ?_, ?_⟩
    · intro i
      unfold queque_message
      rw [hrun]
      by_cases hi : i = n
      · subst hi
        simp
      · rw [Function.update_noteq hi, hval i]
        omega
    · intro i
      unfold queque_message
      rw [hrun]
      by_cases hi : i = n
      · subst hi
        simp [ht]
      · rw [Function.update_noteq hi]
        exact hty i
  · have hfull : queque_message q t v1 v2 v3 = q := by
      unfold queque_message
      exact queque_message_loop_full _ _ _ _ MAX_BRIDGE_MESSAGES 0 q
        (fun j _ hj => (hval j).2 (by omega))
    rw [hfull]
    exact ⟨n, hn, hval, hty⟩

theorem run_messages_of_queueInv (q : UiData) (n : Nat) (h : QueueInv q n) :
    (run_messages q).ret = true ∧ (run_messages q).table = clearSlots q 0 n := by
  obtain ⟨hn, hval, hty⟩ := h
  have hpre : ∀ j, j < n → (q (0 + j)).valid = true ∧
      (q (0 + j)).type ≠ BRIDGE_MESSAGE_QUIT := by
    intro j hj
    rw [Nat.zero_add]
    exact ⟨(hval j).2 hj, hty j ((hval j).2 hj)⟩
  have hstop : (clearSlots q 0 n (0 + n)).valid = false := by
    rw [clearSlots_outside _ _ _ _ (Or.inr (Nat.le_refl _)), Nat.zero_add]
    have := (hval n).not.2 (Nat.lt_irrefl n)
    simpa using this
  unfold run_messages
  rw [run_messages_loop_advance n MAX_BRIDGE_MESSAGES 0 q hn hpre,
    run_messages_loop_invalid _ _ _ hstop]
  exact ⟨rfl, rfl⟩

theorem clearSlots_all_invalid (q : UiData) (n : Nat) (h : QueueInv q n) (i : Nat) :
    (clearSlots q 0 n i).valid = false := by
  by_cases hi : i < n
  · rw [clearSlots_inside _ _ _ _ (Nat.zero_le _) (by omega)]
  · rw [clearSlots_outside _ _ _ _ (Or.inr (by omega))]
    have := (h.2.1 i).not.2 hi
    simpa using this

theorem queueInv_run (q : UiData) (n : Nat) (h : QueueInv q n) :
    QueueInv (run_messages q).table 0 := by
  rw [(run_messages_of_queueInv q n h).2]
  refine ⟨Nat.zero_le _, ?_, ?_⟩
  · intro i
    simp [clearSlots_all_invalid q n h i]
  · intro i hi
    rw [clearSlots_all_invalid q n h i] at hi
    exact absurd hi (by simp)

theorem apply_ops_queueInv (ops : List QueueOp) :
    ∀ (q : UiData) (n : Nat), QueueInv q n → (∀ op, op ∈ ops → op.isQuit = false) →
      (∃ n2, QueueInv (apply_ops q ops) n2) ∧ ∀ b, b ∈ run_returns q ops → b = true := by
  induction ops with
  | nil =>
    intro q n h _
    exact ⟨⟨n, h⟩, by simp [run_returns]⟩
  | cons op ops ih =>
    intro q n h hq
    have hrest : ∀ o, o ∈ ops → o.isQuit = false :=
      fun o ho => hq o (List.mem_cons_of_mem _ ho)
    cases op with
    | enqueue e =>
      have hne : e.type ≠ BRIDGE_MESSAGE_QUIT := by
        have := hq (QueueOp.enqueue e) (List.mem_cons_self _ _)
        simpa [QueueOp.isQuit] using this
      obtain ⟨n2, h2⟩ := queueInv_enqueue q n h e.type e.value1 e.value2 e.value3 hne
      simpa [apply_ops, run_returns] using ih _ n2 h2 hrest
    | run =>
      have h2 := queueInv_run q n h
      have hret := (run_messages_of_queueInv q n h).1
      obtain ⟨hinv, hall⟩ := ih _ 0 h2 hrest
      refine ⟨by simpa [apply_ops] using hinv, ?_⟩
      intro b hb
      simp only [run_returns, List.mem_cons] at hb
      rcases hb with hb | hb
      · rw [hb, hret]
      · exact hall b hb

/-- A pass that reaches a valid Quit message at slot `k` after `k` valid messages of other
kinds: the outcome in closed form. -/
theorem run_messages_reaching_quit (q : UiData) (k : Nat) (hk : k < MAX_BRIDGE_MESSAGES)
    (hbefore : ∀ j, j < k → (q j).valid = true ∧ (q j).type ≠ BRIDGE_MESSAGE_QUIT)
    (hvalid : (q k).valid = true) (hquit : (q k).type = BRIDGE_MESSAGE_QUIT) :
    run_messages q =
      { ret := false, table := clearSlots q 0 k,
        dispatched := window q 0 k ++ [q k],
        calls := (window q 0 k).flatMap (fun m => (switch_message m).1) ++
          [UiCall.toolkit_quit] } := by
  have hpre : ∀ j, j < k → (q (0 + j)).valid = true ∧
      (q (0 + j)).type ≠ BRIDGE_MESSAGE_QUIT := by
    intro j hj
    simpa using hbefore j hj
  obtain ⟨n, hn⟩ : ∃ n, MAX_BRIDGE_MESSAGES - k = n + 1 :=
    ⟨MAX_BRIDGE_MESSAGES - k - 1, by omega⟩
  have hck : clearSlots q 0 k (0 + k) = q k := by
    rw [clearSlots_outside _ _ _ _ (Or.inr (Nat.le_refl _)), Nat.zero_add]
  unfold run_messages
  rw [run_messages_loop_advance k MAX_BRIDGE_MESSAGES 0 q (Nat.le_of_lt hk) hpre, hn,
    run_messages_loop_quit n (0 + k) (clearSlots q 0 k) (by rw [hck]; exact hvalid)
      (by rw [hck]; exact hquit), hck]

/-! ## The claims on the inbound control queue -/

/-- C1: at most 256 `queque_message` calls, none of kind Quit, on a freshly constructed
queue, followed by `run_messages`: the dispatched (type, value1, value2, value3) entries are
the enqueued sequence, in the enqueued order, the handler calls are those of the enqueued
messages in the same order, and the pass returns `true`. -/
theorem C1_fifo_order (es : List Enqueue) (hlen : es.length ≤ MAX_BRIDGE_MESSAGES)
    (hq : ∀ e, e ∈ es → e.type ≠ BRIDGE_MESSAGE_QUIT) :
    (run_messages (queque_messages UiData.new es)).dispatched.map QuequeBridgeMessage.entry = es
    ∧ (run_messages (queque_messages UiData.new es)).calls =
        es.flatMap (fun e => (switch_message e.slot).1)
    ∧ (run_messages (queque_messages UiData.new es)).ret = true := by
  rw [queque_messages_new, List.take_of_length_le hlen, run_messages_filledTable es hlen hq]
  refine ⟨?_, ?_, rfl⟩
  · simp only [List.map_map]
    conv_rhs => rw [← List.map_id es]
    apply List.map_congr_left
    intro e _
    rfl
  · simp [List.flatMap, List.map_map, Function.comp_def]

/-- Witness of C1 on a sequence of three messages. -/
theorem C1_fifo_order_witness :
    ([⟨BRIDGE_MESSAGE_PARAMETER, 2, 0, 5⟩, ⟨BRIDGE_MESSAGE_NOTE_ON, 60, 100, 0⟩,
      ⟨BRIDGE_MESSAGE_SHOW_GUI, 1, 0, 0⟩] : List Enqueue).length ≤ MAX_BRIDGE_MESSAGES
    ∧ (∀ e, e ∈ ([⟨BRIDGE_MESSAGE_PARAMETER, 2, 0, 5⟩, ⟨BRIDGE_MESSAGE_NOTE_ON, 60, 100, 0⟩,
        ⟨BRIDGE_MESSAGE_SHOW_GUI, 1, 0, 0⟩] : List Enqueue) → e.type ≠ BRIDGE_MESSAGE_QUIT)
    ∧ (run_messages (queque_messages UiData.new
        [⟨BRIDGE_MESSAGE_PARAMETER, 2, 0, 5⟩, ⟨BRIDGE_MESSAGE_NOTE_ON, 60, 100, 0⟩,
         ⟨BRIDGE_MESSAGE_SHOW_GUI, 1, 0, 0⟩])).dispatched.map QuequeBridgeMessage.entry
      = [⟨BRIDGE_MESSAGE_PARAMETER, 2, 0, 5⟩, ⟨BRIDGE_MESSAGE_NOTE_ON, 60, 100, 0⟩,
         ⟨BRIDGE_MESSAGE_SHOW_GUI, 1, 0, 0⟩] :=
  ⟨by decide, by decide,
    (C1_fifo_order
      [⟨BRIDGE_MESSAGE_PARAMETER, 2, 0, 5⟩, ⟨BRIDGE_MESSAGE_NOTE_ON, 60, 100, 0⟩,
       ⟨BRIDGE_MESSAGE_SHOW_GUI, 1, 0, 0⟩] (by decide) (by decide)).1⟩

/-- C2: when all 256 slots are valid, `queque_message` returns the table it was given, slot
for slot; the call has no other result, so nothing is reported and the message is lost. -/
theorem C2_full_queue_drops (q : UiData)
    (hfull : ∀ i, i < MAX_BRIDGE_MESSAGES → (q i).valid = true)
    (type : BridgeMessageType) (value1 value2 : Int) (value3 : CDouble) :
    queque_message q type value1 value2 value3 = q := by
  unfold queque_message
  exact queque_message_loop_full _ _ _ _ MAX_BRIDGE_MESSAGES 0 q
    (fun j _ hj => hfull j (by omega))

/-- Witness of C2 on the table whose slots all hold a valid NoteOn message. -/
theorem C2_full_queue_drops_witness :
    (∀ i, i < MAX_BRIDGE_MESSAGES → (fullTable i).valid = true) ∧
    queque_message fullTable BRIDGE_MESSAGE_PROGRAM 5 0 0 = fullTable :=
  ⟨fun _ _ => rfl, C2_full_queue_drops fullTable (fun _ _ => rfl) BRIDGE_MESSAGE_PROGRAM 5 0 0⟩

/-- C3 as stated fails: after enqueueing a single Quit message on a fresh queue, one
`run_messages` pass leaves slot 0 valid. -/
theorem C3_counterexample :
    ¬ (∀ i, i < MAX_BRIDGE_MESSAGES →
        ((run_messages (queque_messages UiData.new
          [⟨BRIDGE_MESSAGE_QUIT, 0, 0, 0⟩])).table i).valid = false) :=
  fun h => absurd (h 0 (by decide)) (by decide)

/-- C3, amended: for every sequence of `queque_message` calls none of which is of kind Quit,
of any length (also beyond the 256-slot capacity), made on a freshly constructed queue, no
slot of the table is valid after one `run_messages` pass. -/
theorem C3_drained_when_no_quit (es : List Enqueue)
    (hq : ∀ e, e ∈ es → e.type ≠ BRIDGE_MESSAGE_QUIT) (i : Nat) :
    ((run_messages (queque_messages UiData.new es)).table i).valid = false := by
  have hlen : (es.take MAX_BRIDGE_MESSAGES).length ≤ MAX_BRIDGE_MESSAGES := by
    simp [List.length_take]
  have hq2 : ∀ e, e ∈ es.take MAX_BRIDGE_MESSAGES → e.type ≠ BRIDGE_MESSAGE_QUIT :=
    fun e he => hq e (List.mem_of_mem_take he)
  rw [queque_messages_new, run_messages_filledTable _ hlen hq2]
  show (clearSlots (filledTable (es.take MAX_BRIDGE_MESSAGES)) 0
    (es.take MAX_BRIDGE_MESSAGES).length i).valid = false
  by_cases hi : i < (es.take MAX_BRIDGE_MESSAGES).length
  · rw [clearSlots_inside _ _ _ _ (Nat.zero_le _) (by omega)]
  · rw [clearSlots_outside _ _ _ _ (Or.inr (by omega)),
      filledTable_ge _ _ (Nat.le_of_not_lt hi)]
    rfl

/-- Witness of amended C3 on a sequence of 300 NoteOn messages, more than the capacity. -/
theorem C3_drained_when_no_quit_witness :
    (∀ e, e ∈ List.replicate 300 (⟨BRIDGE_MESSAGE_NOTE_ON, 60, 100, 0⟩ : Enqueue) →
        e.type ≠ BRIDGE_MESSAGE_QUIT)
    ∧ ((run_messages (queque_messages UiData.new
        (List.replicate 300 ⟨BRIDGE_MESSAGE_NOTE_ON, 60, 100, 0⟩))).table 255).valid = false :=
  ⟨fun e he => by rw [List.eq_of_mem_replicate he]; decide,
    C3_drained_when_no_quit (List.replicate 300 ⟨BRIDGE_MESSAGE_NOTE_ON, 60, 100, 0⟩)
      (fun e he => by rw [List.eq_of_mem_replicate he]; decide) 255⟩

/-- C4: when the scan of `run_messages` reaches a valid Quit message at slot `k` (the slots
before `k` are valid and not of kind Quit), the pass dispatches the slots `0 .. k` in order,
makes the handler calls of the messages before `k` followed by `toolkit_quit`, returns
`false`, marks the slots before `k` invalid and leaves every slot from `k` on exactly as it
was; nothing in a slot after `k` is dispatched. -/
theorem C4_quit_halts (q : UiData) (k : Nat) (hk : k < MAX_BRIDGE_MESSAGES)
    (hbefore : ∀ j, j < k → (q j).valid = true ∧ (q j).type ≠ BRIDGE_MESSAGE_QUIT)
    (hvalid : (q k).valid = true) (hquit : (q k).type = BRIDGE_MESSAGE_QUIT) :
    (run_messages q).ret = false
    ∧ (run_messages q).dispatched = (List.range k).map q ++ [q k]
    ∧ (run_messages q).calls =
        ((List.range k).map q).flatMap (fun m => (switch_message m).1) ++ [UiCall.toolkit_quit]
    ∧ (∀ j, j < k → (run_messages q).table j = { q j with valid := false })
    ∧ (∀ j, k ≤ j → (run_messages q).table j = q j) := by
  have hpre : ∀ j, j < k → (q (0 + j)).valid = true ∧
      (q (0 + j)).type ≠ BRIDGE_MESSAGE_QUIT := by
    intro j hj
    simpa using hbefore j hj
  obtain ⟨n, hn⟩ : ∃ n, MAX_BRIDGE_MESSAGES - k = n + 1 :=
    ⟨MAX_BRIDGE_MESSAGES - k - 1, by omega⟩
  have hck : clearSlots q 0 k (0 + k) = q k := by
    rw [clearSlots_outside _ _ _ _ (Or.inr (Nat.le_refl _)), Nat.zero_add]
  have hrun : run_messages q =
      { ret := false, table := clearSlots q 0 k,
        dispatched := window q 0 k ++ [q k],
        calls := (window q 0 k).flatMap (fun m => (switch_message m).1) ++
          [UiCall.toolkit_quit] } := by
    unfold run_messages
    rw [run_messages_loop_advance k MAX_BRIDGE_MESSAGES 0 q (Nat.le_of_lt hk) hpre, hn,
      run_messages_loop_quit n (0 + k) (clearSlots q 0 k) (by rw [hck]; exact hvalid)
        (by rw [hck]; exact hquit), hck]
  rw [hrun, range_map_eq_window]
  refine ⟨rfl, rfl, rfl, ?_, ?_⟩
  · intro j hj
    exact clearSlots_inside q 0 k j (Nat.zero_le _) (by omega)
  · intro j hj
    exact clearSlots_outside q 0 k j (Or.inr (by omega))

/-- Witness of C4 on a table holding NoteOn, Quit, NoteOff: the Quit message is in slot 1. -/
theorem C4_quit_halts_witness :
    (1 < MAX_BRIDGE_MESSAGES)
    ∧ (∀ j, j < 1 → (quitTable j).valid = true ∧ (quitTable j).type ≠ BRIDGE_MESSAGE_QUIT)
    ∧ (quitTable 1).valid = true ∧ (quitTable 1).type = BRIDGE_MESSAGE_QUIT
    ∧ (run_messages quitTable).ret = false
    ∧ (run_messages quitTable).dispatched = (List.range 1).map quitTable ++ [quitTable 1]
    ∧ (run_messages quitTable).calls =
        ((List.range 1).map quitTable).flatMap (fun m => (switch_message m).1)
          ++ [UiCall.toolkit_quit]
    ∧ (∀ j, j < 1 → (run_messages quitTable).table j = { quitTable j with valid := false })
    ∧ (∀ j, 1 ≤ j → (run_messages quitTable).table j = quitTable j) :=
  ⟨by decide, by decide, by decide, by decide,
    C4_quit_halts quitTable 1 (by decide) (by decide) (by decide) (by decide)⟩

/-- C5: for every table, `run_messages` returns `false` exactly when a message of kind Quit
was dispatched in the pass (equivalently, when `toolkit_quit` was called), and `true` exactly
when none was. -/
theorem C5_return_value (q : UiData) :
    ((run_messages q).ret = false ↔
      ∃ m, m ∈ (run_messages q).dispatched ∧ m.type = BRIDGE_MESSAGE_QUIT)
    ∧ ((run_messages q).ret = false ↔ UiCall.toolkit_quit ∈ (run_messages q).calls)
    ∧ ((run_messages q).ret = true ↔
      ¬ ∃ m, m ∈ (run_messages q).dispatched ∧ m.type = BRIDGE_MESSAGE_QUIT) := by
  have h1 := run_messages_loop_ret MAX_BRIDGE_MESSAGES 0 q
  have h2 := run_messages_loop_calls MAX_BRIDGE_MESSAGES 0 q
  unfold run_messages
  refine ⟨h1, ?_, ?_⟩
  · rw [h1, h2, List.mem_flatMap]
    constructor
    · rintro ⟨m, hm, hq⟩
      exact ⟨m, hm, (switch_message_quit_mem m).2 hq⟩
    · rintro ⟨m, hm, hq⟩
      exact ⟨m, hm, (switch_message_quit_mem m).1 hq⟩
  · rw [← h1]
    cases (run_messages_loop MAX_BRIDGE_MESSAGES 0 q).ret <;> simp

/-- C6: when the table has an invalid slot, `queque_message(type, value1, value2, value3)`
writes (valid, type, value1, value2, value3) into the invalid slot of lowest index, and every
other slot keeps its content. -/
theorem C6_first_free_slot (q : UiData) (type : BridgeMessageType) (value1 value2 : Int)
    (value3 : CDouble) (hfree : ∃ i, i < MAX_BRIDGE_MESSAGES ∧ (q i).valid = false) :
    ∃ k, k < MAX_BRIDGE_MESSAGES ∧ (q k).valid = false ∧ (∀ j, j < k → (q j).valid = true)
      ∧ (queque_message q type value1 value2 value3) k =
          { valid := true, type := type, value1 := value1, value2 := value2,
            value3 := value3 }
      ∧ (∀ j, j ≠ k → (queque_message q type value1 value2 value3) j = q j) := by
  classical
  have hex : ∃ i, (q i).valid = false := hfree.elim (fun i hi => ⟨i, hi.2⟩)
  obtain ⟨i, hi, hinv⟩ := hfree
  have hmin : ∀ j, j < Nat.find hex → (q j).valid = true := by
    intro j hj
    have := Nat.find_min hex hj
    simpa using this
  have hlt : Nat.find hex < MAX_BRIDGE_MESSAGES :=
    Nat.lt_of_le_of_lt (Nat.find_min' hex hinv) hi
  have hrun := queque_message_loop_first type value1 value2 value3 MAX_BRIDGE_MESSAGES 0 q
    (Nat.find hex) (Nat.zero_le _) (by omega) (fun j _ hj => hmin j hj) (Nat.find_spec hex)
  refine ⟨Nat.find hex, hlt, Nat.find_spec hex, hmin, ?_, ?_⟩
  · unfold queque_message
    rw [hrun, Function.update_same]
  · intro j hj
    unfold queque_message
    rw [hrun, Function.update_noteq hj]

/-- Witness of C6 on the freshly constructed table, whose slot 0 is invalid. -/
theorem C6_first_free_slot_witness :
    (∃ i, i < MAX_BRIDGE_MESSAGES ∧ (UiData.new i).valid = false)
    ∧ ∃ k, k < MAX_BRIDGE_MESSAGES ∧ (UiData.new k).valid = false
      ∧ (∀ j, j < k → (UiData.new j).valid = true)
      ∧ (queque_message UiData.new BRIDGE_MESSAGE_NOTE_OFF 60 0 0) k =
          { valid := true, type := BRIDGE_MESSAGE_NOTE_OFF, value1 := 60, value2 := 0,
            value3 := 0 }
      ∧ (∀ j, j ≠ k → (queque_message UiData.new BRIDGE_MESSAGE_NOTE_OFF 60 0 0) j
          = UiData.new j) :=
  ⟨⟨0, by decide, rfl⟩,
    C6_first_free_slot UiData.new BRIDGE_MESSAGE_NOTE_OFF 60 0 0 ⟨0, by decide, rfl⟩⟩

/-- C7: the handler calls of a `run_messages` pass are, in order, those of the dispatched
messages, and each message is dispatched by its kind with fixed arguments: Parameter to
`update_parameter(value1, value3)`, Program to `update_program(value1)`, MidiProgram to
`update_midi_program(value1, value2)`, NoteOn to `send_note_on(value1, value2)`, NoteOff to
`send_note_off(value1)`, ShowGui to `toolkit_window_show` for a nonzero `value1` and to
`toolkit_window_hide` for zero, ResizeGui to `toolkit_window_resize(value1, value2)`, Quit to
`toolkit_quit`: one call for each message of these kinds. -/
theorem C7_dispatch_by_kind (q : UiData) (v : Bool) (value1 value2 : Int) (value3 : CDouble) :
    (run_messages q).calls =
      (run_messages q).dispatched.flatMap (fun m => (switch_message m).1)
    ∧ (switch_message ⟨v, BRIDGE_MESSAGE_PARAMETER, value1, value2, value3⟩).1 =
        [UiCall.update_parameter value1 value3]
    ∧ (switch_message ⟨v, BRIDGE_MESSAGE_PROGRAM, value1, value2, value3⟩).1 =
        [UiCall.update_program value1]
    ∧ (switch_message ⟨v, BRIDGE_MESSAGE_MIDI_PROGRAM, value1, value2, value3⟩).1 =
        [UiCall.update_midi_program value1 value2]
    ∧ (switch_message ⟨v, BRIDGE_MESSAGE_NOTE_ON, value1, value2, value3⟩).1 =
        [UiCall.send_note_on value1 value2]
    ∧ (switch_message ⟨v, BRIDGE_MESSAGE_NOTE_OFF, value1, value2, value3⟩).1 =
        [UiCall.send_note_off value1]
    ∧ (switch_message ⟨v, BRIDGE_MESSAGE_SHOW_GUI, value1, value2, value3⟩).1 =
        [if value1 ≠ 0 then UiCall.toolkit_window_show else UiCall.toolkit_window_hide]
    ∧ (switch_message ⟨v, BRIDGE_MESSAGE_RESIZE_GUI, value1, value2, value3⟩).1 =
        [UiCall.toolkit_window_resize value1 value2]
    ∧ (switch_message ⟨v, BRIDGE_MESSAGE_QUIT, value1, value2, value3⟩).1 =
        [UiCall.toolkit_quit] := by
  refine ⟨run_messages_loop_calls MAX_BRIDGE_MESSAGES 0 q, rfl, rfl, rfl, rfl, rfl, ?_, rfl,
    rfl⟩
  simp only [switch_message]
  split <;> rfl

/-! ## The claims on the plugin event relay -/

/-- C8: a valid MidiProgramChange post-event whose index is at least the plugin's
MIDI-program count makes the relay do nothing for it: the switch makes no call at all (no
publish, no host callback), and the calls of the event loop are those of the other captured
events. -/
theorem C8_index_beyond_count (p : CarlaPlugin) (e : PluginPostEvent) (hv : e.valid = true)
    (ht : e.type = PostEventMidiProgramChange) (hi : (p.midiprog_count : Int) ≤ e.index) :
    post_event_switch p e = []
    ∧ ∀ before after : List PluginPostEvent,
        process_post_events p (before ++ e :: after) =
          process_post_events p before ++ process_post_events p after := by
  have hguard : ¬ e.index < to_int32 p.midiprog_count := by
    have := to_int32_le p.midiprog_count
    omega
  have hsw : post_event_switch p e = [] := by
    simp [post_event_switch, ht, hguard]
  refine ⟨hsw, ?_⟩
  intro before after
  rw [process_post_events_append]
  simp [process_post_events, hv, hsw]

/-- Witness of C8: index 2 on a plugin with two MIDI programs. -/
theorem C8_index_beyond_count_witness :
    (⟨true, PostEventMidiProgramChange, 2, 0⟩ : PluginPostEvent).valid = true
    ∧ (⟨true, PostEventMidiProgramChange, 2, 0⟩ : PluginPostEvent).type
        = PostEventMidiProgramChange
    ∧ (samplePlugin.midiprog_count : Int)
        ≤ (⟨true, PostEventMidiProgramChange, 2, 0⟩ : PluginPostEvent).index
    ∧ post_event_switch samplePlugin ⟨true, PostEventMidiProgramChange, 2, 0⟩ = [] :=
  ⟨rfl, rfl, by decide,
    (C8_index_beyond_count samplePlugin ⟨true, PostEventMidiProgramChange, 2, 0⟩ rfl rfl
      (by decide)).1⟩

/-- C9, the code at a negative index: on a plugin without any MIDI program, a valid
MidiProgramChange post-event with index -1 passes the guard `index < (int32_t)count`; the
relay looks the program up at index -1, publishes the result and calls the host back. -/
theorem C9_negative_index_not_ignored :
    process_post_events emptyProgramsPlugin [⟨true, PostEventMidiProgramChange, -1, 0⟩] =
      [RelayAction.get_midi_program_info (-1),
       RelayAction.osc_send_midi_program 0 0,
       RelayAction.callback_action CALLBACK_MIDI_PROGRAM_CHANGED 0 (-1) 0 0] := by
  decide

/-- C10, the code at a count beyond the signed range: on a plugin whose MIDI-program count is
2^31 the cast `(int32_t)count` is negative, so the valid MidiProgramChange post-event with
index 0, which is in range, fails the guard `index < (int32_t)count` and the relay neither
looks the program up nor publishes nor calls the host back. -/
theorem C10_in_range_event_skipped :
    (0 : Int) ≤ (⟨true, PostEventMidiProgramChange, 0, 0⟩ : PluginPostEvent).index
    ∧ (⟨true, PostEventMidiProgramChange, 0, 0⟩ : PluginPostEvent).index
        < (hugeProgramsPlugin.midiprog_count : Int)
    ∧ process_post_events hugeProgramsPlugin [⟨true, PostEventMidiProgramChange, 0, 0⟩] = [] := by
  decide

/-- The MidiProgramChange case where the cast `(int32_t)count` keeps the count, that is for a
count of at most 2^31 - 1: for a valid event with index from 0 up to count - 1 the relay looks
the program up, publishes the looked-up (bank, program) once, and calls the host back; the
publish is `osc_send_program_as_midi` exactly when the plugin type is DSSI and
`osc_send_midi_program` exactly when it is not, and it is the only publish for the event. -/
theorem midi_program_publish_of_fitting_count (p : CarlaPlugin) (e : PluginPostEvent)
    (hv : e.valid = true) (ht : e.type = PostEventMidiProgramChange)
    (_h0 : 0 ≤ e.index) (hlt : e.index < (p.midiprog_count : Int))
    (hfit : p.midiprog_count < 2147483648) :
    process_post_events p [e] =
      [RelayAction.get_midi_program_info e.index,
       if p.type = PLUGIN_DSSI then
         RelayAction.osc_send_program_as_midi (p.get_midi_program_info e.index).bank
           (p.get_midi_program_info e.index).program
       else
         RelayAction.osc_send_midi_program (p.get_midi_program_info e.index).bank
           (p.get_midi_program_info e.index).program,
       RelayAction.callback_action CALLBACK_MIDI_PROGRAM_CHANGED p.id e.index 0 0]
    ∧ ((process_post_events p [e]).filter RelayAction.isPublish).length = 1
    ∧ (p.type = PLUGIN_DSSI ↔
        RelayAction.osc_send_program_as_midi (p.get_midi_program_info e.index).bank
          (p.get_midi_program_info e.index).program ∈ process_post_events p [e])
    ∧ (p.type ≠ PLUGIN_DSSI ↔
        RelayAction.osc_send_midi_program (p.get_midi_program_info e.index).bank
          (p.get_midi_program_info e.index).program ∈ process_post_events p [e]) := by
  have hguard : e.index < to_int32 p.midiprog_count := by
    rw [to_int32_of_lt _ hfit]
    exact hlt
  have hrun : process_post_events p [e] =
      [RelayAction.get_midi_program_info e.index,
       if p.type = PLUGIN_DSSI then
         RelayAction.osc_send_program_as_midi (p.get_midi_program_info e.index).bank
           (p.get_midi_program_info e.index).program
       else
         RelayAction.osc_send_midi_program (p.get_midi_program_info e.index).bank
           (p.get_midi_program_info e.index).program,
       RelayAction.callback_action CALLBACK_MIDI_PROGRAM_CHANGED p.id e.index 0 0] := by
    simp [process_post_events, post_event_switch, hv, ht, hguard]
  rw [hrun]
  refine ⟨rfl, ?_, ?_, ?_⟩
  · by_cases hd : p.type = PLUGIN_DSSI <;> simp [hd, RelayAction.isPublish]
  · by_cases hd : p.type = PLUGIN_DSSI <;> simp [hd]
  · by_cases hd : p.type = PLUGIN_DSSI <;> simp [hd]

/-- An instance of the case above: index 1 on a plugin, not of type DSSI, with two MIDI
programs. -/
theorem midi_program_publish_of_fitting_count_witness :
    (⟨true, PostEventMidiProgramChange, 1, 0⟩ : PluginPostEvent).valid = true
    ∧ (0 : Int) ≤ (⟨true, PostEventMidiProgramChange, 1, 0⟩ : PluginPostEvent).index
    ∧ (⟨true, PostEventMidiProgramChange, 1, 0⟩ : PluginPostEvent).index
        < (samplePlugin.midiprog_count : Int)
    ∧ samplePlugin.midiprog_count < 2147483648
    ∧ process_post_events samplePlugin [⟨true, PostEventMidiProgramChange, 1, 0⟩] =
        [RelayAction.get_midi_program_info 1,
         RelayAction.osc_send_midi_program 7 1,
         RelayAction.callback_action CALLBACK_MIDI_PROGRAM_CHANGED 3 1 0 0] :=
  ⟨rfl, by decide, by decide, by decide,
    (midi_program_publish_of_fitting_count samplePlugin
      ⟨true, PostEventMidiProgramChange, 1, 0⟩ rfl rfl
      (by decide) (by decide) (by decide)).1⟩

/-- C11: a valid ParameterChange post-event with index `k` and value `v`, on a plugin with
identifier `pluginId`, makes the relay publish once, `osc_send_control(k, v)`, and call the
host back once, `callback_action(CALLBACK_PARAMETER_CHANGED, pluginId, k, 0, v)`; within the
event loop these two calls stand between the calls of the events captured before and after
it. -/
theorem C11_parameter_change (p : CarlaPlugin) (k : Int) (v : CDouble) :
    process_post_events p [⟨true, PostEventParameterChange, k, v⟩] =
      [RelayAction.osc_send_control k v,
       RelayAction.callback_action CALLBACK_PARAMETER_CHANGED p.id k 0 v]
    ∧ (process_post_events p [⟨true, PostEventParameterChange, k, v⟩]).filter
        RelayAction.isPublish = [RelayAction.osc_send_control k v]
    ∧ (process_post_events p [⟨true, PostEventParameterChange, k, v⟩]).filter
        RelayAction.isCallback =
          [RelayAction.callback_action CALLBACK_PARAMETER_CHANGED p.id k 0 v]
    ∧ ∀ before after : List PluginPostEvent,
        process_post_events p (before ++ ⟨true, PostEventParameterChange, k, v⟩ :: after) =
          process_post_events p before ++
            [RelayAction.osc_send_control k v,
             RelayAction.callback_action CALLBACK_PARAMETER_CHANGED p.id k 0 v] ++
            process_post_events p after := by
  have hsw : post_event_switch p ⟨true, PostEventParameterChange, k, v⟩ =
      [RelayAction.osc_send_control k v,
       RelayAction.callback_action CALLBACK_PARAMETER_CHANGED p.id k 0 v] := rfl
  refine ⟨?_, ?_, ?_, ?_⟩
  · rw [process_post_events_single p _ rfl, hsw]
  · rw [process_post_events_single p _ rfl, hsw]
    simp [RelayAction.isPublish]
  · rw [process_post_events_single p _ rfl, hsw]
    simp [RelayAction.isCallback]
  · intro before after
    rw [process_post_events_middle p _ rfl, hsw]

/-! ## The claims on the process supervisor -/

/-- C12: in a GUI mode, when `update_osc_gui` succeeds, `CarlaPluginThread::run` waits for the
subprocess to finish and then calls the host back exactly once: `CALLBACK_SHOW_GUI` with
(plugin id, 0, 0, 0.0) for exit code 0 and with (plugin id, -1, 0, 0.0) for any other exit
code. -/
theorem C12_gui_exit_callback (t : CarlaPluginThread) (a : ProcessAnswers)
    (hmode : t.m_mode = PLUGIN_THREAD_DSSI_GUI ∨ t.m_mode = PLUGIN_THREAD_LV2_GUI)
    (hgui : a.osc_gui = true) :
    (t.run a).2 =
      [SupervisorAction.start t.m_binary (t.arguments a.host_osc_url),
       SupervisorAction.waitForStarted,
       SupervisorAction.update_osc_gui,
       SupervisorAction.waitForFinished (-1),
       SupervisorAction.callback_action CALLBACK_SHOW_GUI t.m_plugin.id
         (if a.exitCode = 0 then 0 else -1) 0 0,
       SupervisorAction.qWarning
         (if a.exitCode = 0 then "CarlaPluginThread::run() - GUI closed"
          else "CarlaPluginThread::run() - GUI crashed")]
    ∧ t.callbacks a =
      [SupervisorAction.callback_action CALLBACK_SHOW_GUI t.m_plugin.id
         (if a.exitCode = 0 then 0 else -1) 0 0] := by
  unfold CarlaPluginThread.callbacks
  rcases hmode with h | h <;> by_cases hc : a.exitCode = 0 <;>
    simp [CarlaPluginThread.run, CarlaPluginThread.supervise, h, hgui, hc,
      SupervisorAction.isCallback]

/-- Witness of C12: the DSSI GUI supervisor of the sample plugin, subprocess ended with exit
code 1. -/
theorem C12_gui_exit_callback_witness :
    (guiThread.m_mode = PLUGIN_THREAD_DSSI_GUI ∨ guiThread.m_mode = PLUGIN_THREAD_LV2_GUI)
    ∧ (answersWithExit 1).osc_gui = true
    ∧ guiThread.callbacks (answersWithExit 1) =
      [SupervisorAction.callback_action CALLBACK_SHOW_GUI guiThread.m_plugin.id
         (if (answersWithExit 1).exitCode = 0 then 0 else -1) 0 0] :=
  ⟨Or.inl rfl, rfl, (C12_gui_exit_callback guiThread (answersWithExit 1) (Or.inl rfl) rfl).2⟩

/-- C13: in a GUI mode, when `update_osc_gui` fails, `CarlaPluginThread::run` calls the host
back exactly once, `CALLBACK_SHOW_GUI` with (plugin id, 0, 0, 0.0), and does not call
`waitForFinished`. -/
theorem C13_gui_timeout (t : CarlaPluginThread) (a : ProcessAnswers)
    (hmode : t.m_mode = PLUGIN_THREAD_DSSI_GUI ∨ t.m_mode = PLUGIN_THREAD_LV2_GUI)
    (hgui : a.osc_gui = false) :
    (t.run a).2 =
      [SupervisorAction.start t.m_binary (t.arguments a.host_osc_url),
       SupervisorAction.waitForStarted,
       SupervisorAction.update_osc_gui,
       SupervisorAction.qDebug "CarlaPluginThread::run() - GUI timeout",
       SupervisorAction.callback_action CALLBACK_SHOW_GUI t.m_plugin.id 0 0 0]
    ∧ t.callbacks a = [SupervisorAction.callback_action CALLBACK_SHOW_GUI t.m_plugin.id 0 0 0]
    ∧ ∀ msecs : Int, SupervisorAction.waitForFinished msecs ∉ (t.run a).2 := by
  unfold CarlaPluginThread.callbacks
  rcases hmode with h | h <;>
    simp [CarlaPluginThread.run, CarlaPluginThread.supervise, h, hgui,
      SupervisorAction.isCallback]

/-- Witness of C13: the DSSI GUI supervisor of the sample plugin, GUI not answering. -/
theorem C13_gui_timeout_witness :
    (guiThread.m_mode = PLUGIN_THREAD_DSSI_GUI ∨ guiThread.m_mode = PLUGIN_THREAD_LV2_GUI)
    ∧ answersNotStarted.osc_gui = false
    ∧ guiThread.callbacks answersNotStarted =
      [SupervisorAction.callback_action CALLBACK_SHOW_GUI guiThread.m_plugin.id 0 0 0] :=
  ⟨Or.inl rfl, rfl, (C13_gui_timeout guiThread answersNotStarted (Or.inl rfl) rfl).2.1⟩

/-- C14 as stated fails: in full-bridge mode the host callbacks of a run whose subprocess
ended with exit code 1 are the same as those of a run whose subprocess ended with exit code
0, namely none. -/
theorem C14_counterexample :
    bridgeThread.m_mode = PLUGIN_THREAD_BRIDGE
    ∧ (answersWithExit 1).exitCode ≠ 0
    ∧ (answersWithExit 0).exitCode = 0
    ∧ bridgeThread.callbacks (answersWithExit 1) = bridgeThread.callbacks (answersWithExit 0)
    ∧ bridgeThread.callbacks (answersWithExit 1) = [] := by
  decide

/-- C14, amended: in a GUI mode, when `update_osc_gui` succeeds, the host callbacks of a run
whose subprocess ended with a nonzero exit code differ from those of a run whose subprocess
ended with exit code 0 (the argument -1 instead of 0); in full-bridge mode no host callback is
made at all. -/
theorem C14_crash_distinct_in_gui_mode (t : CarlaPluginThread) (a : ProcessAnswers)
    (code : Int) (hmode : t.m_mode = PLUGIN_THREAD_DSSI_GUI ∨ t.m_mode = PLUGIN_THREAD_LV2_GUI)
    (hgui : a.osc_gui = true) (hcode : code ≠ 0) :
    t.callbacks { a with exitCode := code } ≠ t.callbacks { a with exitCode := 0 }
    ∧ t.callbacks { a with exitCode := code } =
        [SupervisorAction.callback_action CALLBACK_SHOW_GUI t.m_plugin.id (-1) 0 0]
    ∧ t.callbacks { a with exitCode := 0 } =
        [SupervisorAction.callback_action CALLBACK_SHOW_GUI t.m_plugin.id 0 0 0]
    ∧ ∀ b : ProcessAnswers, ({ t with m_mode := PLUGIN_THREAD_BRIDGE }).callbacks b = [] := by
  have h1 : t.callbacks { a with exitCode := code } =
      [SupervisorAction.callback_action CALLBACK_SHOW_GUI t.m_plugin.id (-1) 0 0] := by
    unfold CarlaPluginThread.callbacks
    rcases hmode with h | h <;>
      simp [CarlaPluginThread.run, CarlaPluginThread.supervise, h, hgui, hcode,
        SupervisorAction.isCallback]
  have h0 : t.callbacks { a with exitCode := 0 } =
      [SupervisorAction.callback_action CALLBACK_SHOW_GUI t.m_plugin.id 0 0 0] := by
    unfold CarlaPluginThread.callbacks
    rcases hmode with h | h <;>
      simp [CarlaPluginThread.run, CarlaPluginThread.supervise, h, hgui,
        SupervisorAction.isCallback]
  refine ⟨?_, h1, h0, ?_⟩
  · rw [h1, h0]
    simp
  · intro b
    unfold CarlaPluginThread.callbacks
    by_cases hc : b.exitCode = 0 <;>
      simp [CarlaPluginThread.run, CarlaPluginThread.supervise, hc,
        SupervisorAction.isCallback]

/-- Witness of amended C14: the DSSI GUI supervisor of the sample plugin, exit code 1. -/
theorem C14_crash_distinct_in_gui_mode_witness :
    (guiThread.m_mode = PLUGIN_THREAD_DSSI_GUI ∨ guiThread.m_mode = PLUGIN_THREAD_LV2_GUI)
    ∧ (answersWithExit 7).osc_gui = true
    ∧ (1 : Int) ≠ 0
    ∧ guiThread.callbacks { answersWithExit 7 with exitCode := 1 } ≠
        guiThread.callbacks { answersWithExit 7 with exitCode := 0 } :=
  ⟨Or.inl rfl, rfl, by decide,
    (C14_crash_distinct_in_gui_mode guiThread (answersWithExit 7) 1 (Or.inl rfl) rfl
      (by decide)).1⟩

/-- C15: `CarlaPluginThread::run` starts the binary stored by the last `setOscData` with an
argument list fixed by the mode, the first argument being the host OSC url, a slash and the
plugin identifier: in DSSI GUI mode the url, the plugin filename, the label and the plugin
name followed by " (GUI)"; in LV2 GUI mode the url, the label, data1, data2, data3 and the
plugin name followed by " (GUI)"; in bridge mode the url, data1, the plugin filename and the
label. -/
theorem C15_spawn_arguments (t : CarlaPluginThread) (a : ProcessAnswers)
    (binary label data1 data2 data3 : String) :
    ((({ t with m_mode := PLUGIN_THREAD_DSSI_GUI }).setOscData
        binary label data1 data2 data3).run a).2.head? =
      some (SupervisorAction.start binary
        [a.host_osc_url ++ "/" ++ toString t.m_plugin.id, t.m_plugin.filename, label,
         t.m_plugin.name ++ " (GUI)"])
    ∧ ((({ t with m_mode := PLUGIN_THREAD_LV2_GUI }).setOscData
        binary label data1 data2 data3).run a).2.head? =
      some (SupervisorAction.start binary
        [a.host_osc_url ++ "/" ++ toString t.m_plugin.id, label, data1, data2, data3,
         t.m_plugin.name ++ " (GUI)"])
    ∧ ((({ t with m_mode := PLUGIN_THREAD_BRIDGE }).setOscData
        binary label data1 data2 data3).run a).2.head? =
      some (SupervisorAction.start binary
        [a.host_osc_url ++ "/" ++ toString t.m_plugin.id, data1, t.m_plugin.filename,
         label])
    ∧ ((t.run a).2.filter (fun x =>
          match x with
          | SupervisorAction.start _ _ => true
          | _ => false)).length = 1 := by
  refine ⟨rfl, rfl, rfl, ?_⟩
  cases hm : t.m_mode <;> by_cases hg : a.osc_gui = true <;> by_cases hc : a.exitCode = 0 <;>
    simp [CarlaPluginThread.run, CarlaPluginThread.supervise, hm, hg, hc]

/-- C16 as stated fails: in full-bridge mode, when the subprocess does not start, `run` makes
no host callback. -/
theorem C16_counterexample :
    bridgeThread.m_mode = PLUGIN_THREAD_BRIDGE
    ∧ answersNotStarted.started = false
    ∧ bridgeThread.callbacks answersNotStarted = [] := by
  decide

/-- C16, amended: when the subprocess does not start, `CarlaPluginThread::run` behaves as when
it has started, the result of `waitForStarted` not being looked at: in either GUI mode it
makes exactly one host callback, `CALLBACK_SHOW_GUI` for the plugin's identifier, whose
argument is -1 when `update_osc_gui` succeeded and the exit code is not 0, and 0 otherwise; in
full-bridge mode it makes none; and in every mode two runs with the same result of
`update_osc_gui` and the same exit code make the same host callbacks. -/
theorem C16_start_result_ignored (t : CarlaPluginThread) (a : ProcessAnswers)
    (_hfail : a.started = false) :
    (t.run a).2 = (t.run { a with started := true }).2
    ∧ ({ t with m_mode := PLUGIN_THREAD_DSSI_GUI }).callbacks a =
        [SupervisorAction.callback_action CALLBACK_SHOW_GUI t.m_plugin.id
          (if a.osc_gui = true ∧ a.exitCode ≠ 0 then -1 else 0) 0 0]
    ∧ ({ t with m_mode := PLUGIN_THREAD_LV2_GUI }).callbacks a =
        [SupervisorAction.callback_action CALLBACK_SHOW_GUI t.m_plugin.id
          (if a.osc_gui = true ∧ a.exitCode ≠ 0 then -1 else 0) 0 0]
    ∧ ({ t with m_mode := PLUGIN_THREAD_BRIDGE }).callbacks a = []
    ∧ ∀ b : ProcessAnswers, b.osc_gui = a.osc_gui → b.exitCode = a.exitCode →
        t.callbacks b = t.callbacks a := by
  refine ⟨?_, ?_, ?_, ?_, ?_⟩
  · cases hm : t.m_mode <;>
      simp [CarlaPluginThread.run, CarlaPluginThread.supervise, CarlaPluginThread.arguments, hm]
  · unfold CarlaPluginThread.callbacks
    by_cases hg : a.osc_gui = true <;> by_cases hc : a.exitCode = 0 <;>
      simp [CarlaPluginThread.run, CarlaPluginThread.supervise, hg, hc,
        SupervisorAction.isCallback]
  · unfold CarlaPluginThread.callbacks
    by_cases hg : a.osc_gui = true <;> by_cases hc : a.exitCode = 0 <;>
      simp [CarlaPluginThread.run, CarlaPluginThread.supervise, hg, hc,
        SupervisorAction.isCallback]
  · unfold CarlaPluginThread.callbacks
    by_cases hc : a.exitCode = 0 <;>
      simp [CarlaPluginThread.run, CarlaPluginThread.supervise, hc,
        SupervisorAction.isCallback]
  · intro b hbg hbe
    unfold CarlaPluginThread.callbacks
    cases hm : t.m_mode <;> by_cases hg : a.osc_gui = true <;>
      by_cases hc : a.exitCode = 0 <;>
      simp [CarlaPluginThread.run, CarlaPluginThread.supervise, hm, hbg, hbe, hg, hc,
        SupervisorAction.isCallback]

/-- Witness of amended C16: the supervisors of the sample plugin, subprocess not started. -/
theorem C16_start_result_ignored_witness :
    answersNotStarted.started = false
    ∧ (bridgeThread.run answersNotStarted).2 =
        (bridgeThread.run { answersNotStarted with started := true }).2
    ∧ ({ guiThread with m_mode := PLUGIN_THREAD_DSSI_GUI }).callbacks answersNotStarted =
        [SupervisorAction.callback_action CALLBACK_SHOW_GUI guiThread.m_plugin.id
          (if answersNotStarted.osc_gui = true ∧ answersNotStarted.exitCode ≠ 0 then -1
           else 0) 0 0] :=
  ⟨rfl, (C16_start_result_ignored bridgeThread answersNotStarted rfl).1,
    (C16_start_result_ignored guiThread answersNotStarted rfl).2.1⟩

/-! ## Further claims on the plugin event relay and the queue -/

/-- C17: a valid NoteOn post-event makes the relay call the host back once, with
`CALLBACK_NOTE_ON`, the plugin's identifier, the event's index as note and the event's value,
converted to the 32-bit `int` of the callback, as velocity (an integral value within the
range of `int` is passed as it is, and what is passed always lies in that range); a valid
NoteOff post-event makes it call the host back once, with `CALLBACK_NOTE_OFF`, the plugin's
identifier and the event's index as note; neither makes it publish anything. -/
theorem C17_note_events (p : CarlaPlugin) (note : Int) (value : CDouble) (velocity : Int)
    (hrange : -2147483648 ≤ velocity ∧ velocity ≤ 2147483647) :
    process_post_events p [⟨true, PostEventNoteOn, note, value⟩] =
      [RelayAction.callback_action CALLBACK_NOTE_ON p.id note (double_to_int value) 0]
    ∧ process_post_events p [⟨true, PostEventNoteOn, note, (velocity : Rat)⟩] =
      [RelayAction.callback_action CALLBACK_NOTE_ON p.id note velocity 0]
    ∧ (-2147483648 ≤ double_to_int value ∧ double_to_int value ≤ 2147483647)
    ∧ process_post_events p [⟨true, PostEventNoteOff, note, value⟩] =
      [RelayAction.callback_action CALLBACK_NOTE_OFF p.id note 0 0]
    ∧ (process_post_events p [⟨true, PostEventNoteOn, note, value⟩]).filter
        RelayAction.isPublish = []
    ∧ (process_post_events p [⟨true, PostEventNoteOff, note, value⟩]).filter
        RelayAction.isPublish = []
    ∧ ∀ before after : List PluginPostEvent,
        process_post_events p (before ++ ⟨true, PostEventNoteOn, note, value⟩ :: after) =
          process_post_events p before ++
            [RelayAction.callback_action CALLBACK_NOTE_ON p.id note (double_to_int value) 0]
            ++ process_post_events p after
        ∧ process_post_events p (before ++ ⟨true, PostEventNoteOff, note, value⟩ :: after) =
          process_post_events p before ++
            [RelayAction.callback_action CALLBACK_NOTE_OFF p.id note 0 0]
            ++ process_post_events p after := by
  have hon : ∀ x : CDouble, post_event_switch p ⟨true, PostEventNoteOn, note, x⟩ =
      [RelayAction.callback_action CALLBACK_NOTE_ON p.id note (double_to_int x) 0] :=
    fun _ => rfl
  have hoff : post_event_switch p ⟨true, PostEventNoteOff, note, value⟩ =
      [RelayAction.callback_action CALLBACK_NOTE_OFF p.id note 0 0] := rfl
  refine ⟨?_, ?_, double_to_int_range value, ?_, ?_, ?_, ?_⟩
  · rw [process_post_events_single p _ rfl, hon]
  · rw [process_post_events_single p _ rfl, hon, double_to_int_intCast velocity hrange]
  · rw [process_post_events_single p _ rfl, hoff]
  · rw [process_post_events_single p _ rfl, hon]
    simp [RelayAction.isPublish]
  · rw [process_post_events_single p _ rfl, hoff]
    simp [RelayAction.isPublish]
  · intro before after
    rw [process_post_events_middle p _ rfl, process_post_events_middle p _ rfl, hon, hoff]
    exact ⟨rfl, rfl⟩

/-- Witness of C17: note 60 with velocity 100 on the sample plugin with identifier 3. -/
theorem C17_note_events_witness :
    ((-2147483648 : Int) ≤ 100 ∧ (100 : Int) ≤ 2147483647)
    ∧ process_post_events samplePlugin [⟨true, PostEventNoteOn, 60, ((100 : Int) : Rat)⟩] =
      [RelayAction.callback_action CALLBACK_NOTE_ON samplePlugin.id 60 100 0]
    ∧ process_post_events samplePlugin [⟨true, PostEventNoteOff, 60, 0⟩] =
      [RelayAction.callback_action CALLBACK_NOTE_OFF samplePlugin.id 60 0 0] :=
  ⟨by decide,
    (C17_note_events samplePlugin 60 0 100 (by decide)).2.1,
    (C17_note_events samplePlugin 60 0 100 (by decide)).2.2.2.1⟩

/-- C18: for an occupied plugin slot the calls of a relay cycle are the capture of the post
events, the calls of the captured events and then the calls of the port update; the port
update does not depend on the post events.  With a remote UI attached it publishes, in
parameter index order, one `osc_send_control` for each parameter that is an output and has the
automatable bit in its hints, carrying that parameter's current value, and nothing for any
other parameter; without a remote UI it publishes nothing. -/
theorem C18_output_parameters (PARAMETER_IS_AUTOMABLE : Nat) (p : CarlaPlugin)
    (events : List PluginPostEvent) :
    (CarlaCheckThread.run_plugin PARAMETER_IS_AUTOMABLE { p with post_events := events }).2 =
      RelayAction.post_events_copy ::
        (process_post_events p events ++ update_ports PARAMETER_IS_AUTOMABLE p)
    ∧ update_ports PARAMETER_IS_AUTOMABLE { p with post_events := events } =
        update_ports PARAMETER_IS_AUTOMABLE p
    ∧ update_ports PARAMETER_IS_AUTOMABLE { p with osc_data_target := true } =
        ((List.range p.param_count).filter (fun j =>
            decide ((p.param_data j).type = PARAMETER_OUTPUT
              ∧ ((p.param_data j).hints &&& PARAMETER_IS_AUTOMABLE) > 0))).map
          (fun j => RelayAction.osc_send_control (p.param_data j).rindex
            (p.get_parameter_value j))
    ∧ update_ports PARAMETER_IS_AUTOMABLE { p with osc_data_target := false } = [] := by
  have hind : ∀ (q : CarlaPlugin) (es : List PluginPostEvent) (g : Bool) (n j : Nat),
      update_ports_loop PARAMETER_IS_AUTOMABLE { q with post_events := es } g n j =
        update_ports_loop PARAMETER_IS_AUTOMABLE q g n j := by
    intro q es g n j
    rw [update_ports_loop_eq, update_ports_loop_eq]
  have hev : ∀ (q : CarlaPlugin) (es fs : List PluginPostEvent),
      process_post_events { q with post_events := es } fs = process_post_events q fs := by
    intro q es fs
    induction fs with
    | nil => rfl
    | cons f fs ih =>
      simp only [process_post_events, ih]
      rfl
  refine ⟨?_, ?_, ?_, ?_⟩
  · simp only [CarlaCheckThread.run_plugin, CarlaPlugin.post_events_copy]
    rw [hev]
    simp only [update_ports]
    rw [hind]
  · simp only [update_ports]
    rw [hind]
  · simp only [update_ports]
    rw [update_ports_loop_eq, List.range_eq_range']
    simp
  · simp only [update_ports]
    exact update_ports_loop_no_target _ _ _ _

/-- C19: a plugin slot that is empty or whose plugin has a negative identifier is passed over
by a relay cycle: the slot is left as it is (its post-event buffer is neither captured nor
cleared), no call is made for it, and the slots before and after it are processed in index
order as they would be without it. -/
theorem C19_skipped_slot (PARAMETER_IS_AUTOMABLE : Nat)
    (before after : List (Option CarlaPlugin)) (slot : Option CarlaPlugin)
    (hskip : slot = none ∨ ∃ plugin, slot = some plugin ∧ plugin.id < 0) :
    CarlaCheckThread.run_cycle PARAMETER_IS_AUTOMABLE [slot] = ([slot], [])
    ∧ CarlaCheckThread.run_cycle PARAMETER_IS_AUTOMABLE (before ++ slot :: after) =
      ((CarlaCheckThread.run_cycle PARAMETER_IS_AUTOMABLE before).1 ++
          slot :: (CarlaCheckThread.run_cycle PARAMETER_IS_AUTOMABLE after).1,
       (CarlaCheckThread.run_cycle PARAMETER_IS_AUTOMABLE before).2 ++
          (CarlaCheckThread.run_cycle PARAMETER_IS_AUTOMABLE after).2) := by
  have h1 := run_cycle_skip PARAMETER_IS_AUTOMABLE slot hskip
  refine ⟨h1, ?_⟩
  have hsplit : before ++ slot :: after = before ++ ([slot] ++ after) := by simp
  rw [hsplit, run_cycle_append, run_cycle_append, h1]
  simp

/-- Witness of C19: an empty slot and a slot with a negative identifier between two occupied
slots. -/
theorem C19_skipped_slot_witness :
    ((some negativeIdPlugin : Option CarlaPlugin) = none
      ∨ ∃ plugin, some negativeIdPlugin = some plugin ∧ plugin.id < 0)
    ∧ CarlaCheckThread.run_cycle 16 [some negativeIdPlugin] = ([some negativeIdPlugin], [])
    ∧ CarlaCheckThread.run_cycle 16
        ([some portsPlugin, none] ++ some negativeIdPlugin :: [some samplePlugin]) =
      ((CarlaCheckThread.run_cycle 16 [some portsPlugin, none]).1 ++
          some negativeIdPlugin :: (CarlaCheckThread.run_cycle 16 [some samplePlugin]).1,
       (CarlaCheckThread.run_cycle 16 [some portsPlugin, none]).2 ++
          (CarlaCheckThread.run_cycle 16 [some samplePlugin]).2) :=
  ⟨Or.inr ⟨negativeIdPlugin, rfl, by decide⟩,
    C19_skipped_slot 16 [some portsPlugin, none] [some samplePlugin] (some negativeIdPlugin)
      (Or.inr ⟨negativeIdPlugin, rfl, by decide⟩)⟩

/-- C20: after any sequence of `queque_message` and `run_messages` calls on a freshly
constructed queue in which no Quit message is enqueued, the valid slots are an initial
stretch of the table (below a valid slot every slot is valid), every `run_messages` call of
the sequence has returned `true`, and a `run_messages` call made in the state reached returns
`true` and leaves no slot valid. -/
theorem C20_no_quit_invariant (ops : List QueueOp)
    (hq : ∀ op, op ∈ ops → op.isQuit = false) :
    (∀ i j, j < i → (apply_ops UiData.new ops i).valid = true →
        (apply_ops UiData.new ops j).valid = true)
    ∧ (∀ b, b ∈ run_returns UiData.new ops → b = true)
    ∧ (run_messages (apply_ops UiData.new ops)).ret = true
    ∧ ∀ i, ((run_messages (apply_ops UiData.new ops)).table i).valid = false := by
  obtain ⟨⟨n, hinv⟩, hall⟩ := apply_ops_queueInv ops UiData.new 0 queueInv_new hq
  have hrun := run_messages_of_queueInv _ n hinv
  refine ⟨?_, hall, hrun.1, ?_⟩
  · intro i j hji hi
    have hin : i < n := (hinv.2.1 i).1 hi
    exact (hinv.2.1 j).2 (by omega)
  · intro i
    rw [hrun.2]
    exact clearSlots_all_invalid _ n hinv i

/-- Witness of C20: two enqueues, a drain, and one more enqueue. -/
theorem C20_no_quit_invariant_witness :
    (∀ op, op ∈ [QueueOp.enqueue ⟨BRIDGE_MESSAGE_NOTE_ON, 60, 100, 0⟩,
        QueueOp.enqueue ⟨BRIDGE_MESSAGE_PROGRAM, 2, 0, 0⟩, QueueOp.run,
        QueueOp.enqueue ⟨BRIDGE_MESSAGE_NOTE_OFF, 60, 0, 0⟩] → op.isQuit = false)
    ∧ (run_messages (apply_ops UiData.new
        [QueueOp.enqueue ⟨BRIDGE_MESSAGE_NOTE_ON, 60, 100, 0⟩,
         QueueOp.enqueue ⟨BRIDGE_MESSAGE_PROGRAM, 2, 0, 0⟩, QueueOp.run,
         QueueOp.enqueue ⟨BRIDGE_MESSAGE_NOTE_OFF, 60, 0, 0⟩])).ret = true :=
  ⟨by decide,
    (C20_no_quit_invariant
      [QueueOp.enqueue ⟨BRIDGE_MESSAGE_NOTE_ON, 60, 100, 0⟩,
       QueueOp.enqueue ⟨BRIDGE_MESSAGE_PROGRAM, 2, 0, 0⟩, QueueOp.run,
       QueueOp.enqueue ⟨BRIDGE_MESSAGE_NOTE_OFF, 60, 0, 0⟩] (by decide)).2.2.1⟩

/-- C21: after a `run_messages` pass that stopped on a Quit message at slot `k`, with `k` at
least 1, slot 0 is invalid and the Quit slot is still valid; a second `run_messages` call
made right after it ends at slot 0: it dispatches no message, makes no call, returns `true`
and changes no slot, so the Quit message and every slot after it are as they were before the
first pass. -/
theorem C21_second_pass_after_quit (q : UiData) (k : Nat) (hk1 : 1 ≤ k)
    (hk : k < MAX_BRIDGE_MESSAGES)
    (hbefore : ∀ j, j < k → (q j).valid = true ∧ (q j).type ≠ BRIDGE_MESSAGE_QUIT)
    (hvalid : (q k).valid = true) (hquit : (q k).type = BRIDGE_MESSAGE_QUIT) :
    (run_messages q).ret = false
    ∧ ((run_messages q).table k).valid = true
    ∧ ((run_messages q).table k).type = BRIDGE_MESSAGE_QUIT
    ∧ ((run_messages q).table 0).valid = false
    ∧ (run_messages (run_messages q).table).ret = true
    ∧ (run_messages (run_messages q).table).dispatched = []
    ∧ (run_messages (run_messages q).table).calls = []
    ∧ (run_messages (run_messages q).table).table = (run_messages q).table
    ∧ ∀ j, k ≤ j → (run_messages (run_messages q).table).table j = q j := by
  have hfirst := run_messages_reaching_quit q k hk hbefore hvalid hquit
  have htab : (run_messages q).table = clearSlots q 0 k := by rw [hfirst]
  have hkeep : ∀ j, k ≤ j → clearSlots q 0 k j = q j :=
    fun j hj => clearSlots_outside q 0 k j (Or.inr (by omega))
  have hzero : (clearSlots q 0 k 0).valid = false := by
    rw [clearSlots_inside q 0 k 0 (Nat.le_refl 0) (by omega)]
  have hsecond : run_messages (clearSlots q 0 k) =
      { ret := true, table := clearSlots q 0 k, dispatched := [], calls := [] } := by
    unfold run_messages
    exact run_messages_loop_invalid _ _ _ hzero
  rw [htab, hsecond]
  refine ⟨by rw [hfirst], ?_, ?_, hzero, rfl, rfl, rfl, rfl, ?_⟩
  · rw [hkeep k (Nat.le_refl k)]
    exact hvalid
  · rw [hkeep k (Nat.le_refl k)]
    exact hquit
  · intro j hj
    exact hkeep j hj

/-- Witness of C21 on a table holding NoteOn, Quit, NoteOff: the Quit message is in slot 1. -/
theorem C21_second_pass_after_quit_witness :
    (1 ≤ 1) ∧ (1 < MAX_BRIDGE_MESSAGES)
    ∧ (∀ j, j < 1 → (quitTable j).valid = true ∧ (quitTable j).type ≠ BRIDGE_MESSAGE_QUIT)
    ∧ (quitTable 1).valid = true ∧ (quitTable 1).type = BRIDGE_MESSAGE_QUIT
    ∧ (run_messages (run_messages quitTable).table).ret = true
    ∧ (run_messages (run_messages quitTable).table).dispatched = []
    ∧ ((run_messages (run_messages quitTable).table).table 2) = quitTable 2 :=
  ⟨by decide, by decide, by decide, by decide, by decide,
    (C21_second_pass_after_quit quitTable 1 (by decide) (by decide) (by decide) (by decide)
      (by decide)).2.2.2.2.1,
    (C21_second_pass_after_quit quitTable 1 (by decide) (by decide) (by decide) (by decide)
      (by decide)).2.2.2.2.2.1,
    (C21_second_pass_after_quit quitTable 1 (by decide) (by decide) (by decide) (by decide)
      (by decide)).2.2.2.2.2.2.2.2 2 (by decide)⟩

end Cadence
